import Mathlib

/-!
# virtio-iommu built-in topology (drivers/iommu/virtio-iommu-topology.c)

A shallow embedding of the topology parser, the registry of translation-unit
descriptors and the endpoint resolver, followed by theorems about them.

Conventions of the embedding
* a `struct device *` is the address of the device (a natural number); a
  pointer that may be NULL is an `Option`;
* the register window behind `cfg` is a byte memory indexed by the byte offset
  from `cfg`; `ioread32` assembles four bytes little-endian;
* `u16`, `u32` values are naturals reduced modulo `2 ^ 16`, `2 ^ 32` where the
  C code truncates;
* the global list `viommus` is a Lean list whose head is the first entry that
  `list_for_each_entry` visits; `list_add` therefore conses;
* allocation results are inputs of the functions that allocate; `size_t` is
  64 bits wide, so `spec_length` does not overflow for a `u32` item count.
-/

namespace ViommuTopology

/-! ## Constants and layouts that come from headers outside this file -/

/-- Errno value `EPROBE_DEFER` of include/linux/errno.h. -/
def EPROBE_DEFER : Int := 517

/-- Errno value `ENOMEM` of include/uapi/asm-generic/errno-base.h. -/
def ENOMEM : Int := 12

/-- Errno value `EINVAL` of include/uapi/asm-generic/errno-base.h. -/
def EINVAL : Int := 22

/-- The declarations of uapi/linux/virtio_iommu.h used by the driver, taken as
a parameter: the byte offsets of the three header registers inside
`struct virtio_iommu_config`, `sizeof(union viommu_topo_cfg)`, the byte offsets
of the fields of `struct virtio_iommu_topo_pci_range` and the value of
`VIRTIO_IOMMU_TOPO_PCI_RANGE`.  The tag `type` is the first member of the
union and so lives at offset 0. -/
structure topo_layout where
  topo_offset : Nat
  topo_num_items : Nat
  topo_item_length : Nat
  cfg_size : Nat
  requester_start : Nat
  requester_end : Nat
  hierarchy : Nat
  endpoint_start : Nat
  PCI_RANGE : Nat
deriving DecidableEq, Repr

/-- What C guarantees of the layout: the union holds a `__le32`, so its size
is a positive multiple of 4, and every field of the PCI range structure lies
inside it. -/
def topo_layout.wf (L : topo_layout) : Prop :=
  0 < L.cfg_size ∧ L.cfg_size % 4 = 0 ∧
  L.requester_start + 2 ≤ L.cfg_size ∧ L.requester_end + 2 ≤ L.cfg_size ∧
  L.hierarchy + 2 ≤ L.cfg_size ∧ L.endpoint_start + 4 ≤ L.cfg_size

instance (L : topo_layout) : Decidable L.wf := by
  unfold topo_layout.wf; infer_instance

/-- Modelled from the spec: the header uapi/linux/virtio_iommu.h is not among
the sources.  The range record lists, after the 2-byte kind tag, requesterStart
(u16), requesterEnd (u16), hierarchy (u16) and endpointStart (u32); the header
registers are offset, item stride and item count.  The record storage is taken
16 bytes wide, the range kind tag as 1 and the header at byte 40 of the device
configuration.  Only the examples use this layout; the theorems are stated for
every layout. -/
def spec_layout : topo_layout where
  topo_offset := 40
  topo_num_items := 44
  topo_item_length := 48
  cfg_size := 16
  requester_start := 2
  requester_end := 4
  hierarchy := 6
  endpoint_start := 8
  PCI_RANGE := 1

/-! ## Data model -/

/-- The register window `cfg`: byte at a byte offset (only the low 8 bits of
the value count). -/
abbrev Window := Nat → Nat

/-- The storage of one `union viommu_topo_cfg`: its bytes in memory order. -/
abbrev viommu_topo_cfg := List Nat

/-- The `struct viommu_spec` descriptor. -/
structure viommu_spec where
  dev : Nat
  fwnode : Option Nat
  ops : Option Nat
  num_items : Nat
  cfg : List viommu_topo_cfg
deriving DecidableEq, Repr

/-- The `struct iommu_fwspec` of a device: resolver, identity handle, ids. -/
structure iommu_fwspec where
  ops : Option Nat
  iommu_fwnode : Option Nat
  ids : List Nat
deriving DecidableEq, Repr

/-- What the resolver reads of a `struct pci_dev`: `pci_domain_nr(pdev->bus)`
(an `int`) and `pci_dev_id(pdev)`. -/
structure pci_dev where
  domain_nr : Int
  devid : Nat
deriving DecidableEq, Repr

/-- What the driver reads and writes of a `struct device`: its address, its
`fwnode`, whether it is a PCI device (`dev_is_pci`, `to_pci_dev`), its
`iommu_fwspec`, whether it sits on a bus, whether it is in an IOMMU group
(`device_iommu_mapped`), and two marks left by the replayed probe and by the
DMA-operations setup. -/
structure device where
  addr : Nat
  fwnode : Option Nat
  pci : Option pci_dev
  fwspec : Option iommu_fwspec
  bus : Bool
  iommu_mapped : Bool
  probe_replayed : Bool
  dma_ops_set : Bool
deriving DecidableEq, Repr

/-- Global state: the list `viommus` and the PCI layer's ACS request flag. -/
structure kstate where
  viommus : List viommu_spec
  pci_acs_enable : Bool
deriving DecidableEq, Repr

/-- Outcome of the allocations a call performs. -/
structure mem_env where
  kzalloc_ok : Bool
  krealloc_ok : Bool
deriving DecidableEq, Repr

/-- A `const struct iommu_ops *` result: NULL, an `ERR_PTR(errno)`, or a valid
pointer. -/
inductive ops_ptr where
  | null : ops_ptr
  | err (errno : Int) : ops_ptr
  | ops (p : Nat) : ops_ptr
deriving DecidableEq, Repr

/-! ## Register and byte access -/

/-- Byte `k` of a record (0 beyond its storage). -/
def cfg_byte (cfg : viommu_topo_cfg) (k : Nat) : Nat := cfg.getD k 0 % 256

/-- Macro `le16_to_cpu` applied to the two bytes at byte offset `off`. -/
def le16_to_cpu (cfg : viommu_topo_cfg) (off : Nat) : Nat :=
  cfg_byte cfg off + 256 * cfg_byte cfg (off + 1)

/-- Macro `le32_to_cpu` applied to the four bytes at byte offset `off`. -/
def le32_to_cpu (cfg : viommu_topo_cfg) (off : Nat) : Nat :=
  cfg_byte cfg off + 256 * cfg_byte cfg (off + 1) + 65536 * cfg_byte cfg (off + 2)
    + 16777216 * cfg_byte cfg (off + 3)

/-- Register read `ioread32` at byte offset `a` of the window: a little-endian
register read as a CPU value. -/
def ioread32 (w : Window) (a : Nat) : Nat :=
  w a % 256 + 256 * (w (a + 1) % 256) + 65536 * (w (a + 2) % 256)
    + 16777216 * (w (a + 3) % 256)

/-- The store `dst[i] = cpu_to_le32(v)`: the four bytes of `v`, low byte
first, at bytes `4 * i .. 4 * i + 3` of `dst`. -/
def store_le32 (dst : viommu_topo_cfg) (i : Nat) (v : Nat) : viommu_topo_cfg :=
  (((dst.set (4 * i) (v % 256)).set (4 * i + 1) (v / 256 % 256)).set
    (4 * i + 2) (v / 65536 % 256)).set (4 * i + 3) (v / 16777216 % 256)

/-! ## Topology parser -/

/-- The loop of `viommu_ccopy`: words `0 .. n - 1`, in increasing order. -/
def viommu_ccopy_loop (w : Window) (src : Nat) : Nat → viommu_topo_cfg → viommu_topo_cfg
  | 0, dst => dst
  | n + 1, dst => store_le32 (viommu_ccopy_loop w src n dst) n (ioread32 w (src + 4 * n))

/-- Function `viommu_ccopy`: nothing is copied when `length % 4` is not zero
(the `WARN_ON` branch), else `length / 4` words. -/
def viommu_ccopy (w : Window) (dst : viommu_topo_cfg) (src : Nat) (length : Nat) :
    viommu_topo_cfg :=
  if length % 4 ≠ 0 then dst else viommu_ccopy_loop w src (length / 4) dst

/-- A record as `kzalloc` leaves it. -/
def zero_cfg (L : topo_layout) : viommu_topo_cfg := List.replicate L.cfg_size 0

/-- The copy loop of `viommu_parse_topology`: `n` items starting at the `u32`
offset `offset`, which advances by `item_length` modulo `2 ^ 32`. -/
def viommu_copy_items (L : topo_layout) (w : Window) (item_length : Nat) :
    Nat → Nat → List viommu_topo_cfg
  | 0, _ => []
  | n + 1, offset =>
    viommu_ccopy w (zero_cfg L) offset (min item_length L.cfg_size) ::
      viommu_copy_items L w item_length n ((offset + item_length) % 2 ^ 32)

/-- The descriptor that `viommu_parse_topology` allocates (`kzalloc`: no
fwnode, no ops) and fills from the window, for a device and the header read
from the window. -/
def viommu_new_spec (L : topo_layout) (dev : device) (w : Window) : viommu_spec :=
  let offset := ioread32 w L.topo_offset
  let item_length := ioread32 w L.topo_item_length
  let num_items := ioread32 w L.topo_num_items
  { dev := dev.addr, fwnode := none, ops := none, num_items := num_items,
    cfg := viommu_copy_items L w item_length num_items offset }

/-- Function `viommu_parse_topology`: returns the `int` result and the new
state; `list_add` puts the descriptor at the head of `viommus`. -/
def viommu_parse_topology (L : topo_layout) (mem : mem_env) (dev : device) (w : Window)
    (s : kstate) : Int × kstate :=
  let offset := ioread32 w L.topo_offset
  let item_length := ioread32 w L.topo_item_length
  let num_items := ioread32 w L.topo_num_items
  if offset = 0 ∨ num_items = 0 ∨ item_length = 0 then (0, s)
  else if mem.kzalloc_ok = false then (-ENOMEM, s)
  else (0, { s with viommus := viommu_new_spec L dev w :: s.viommus })

/-! ## Endpoint resolver -/

/-- The value `u16 devid = pci_dev_id(pdev)`. -/
def pci_dev_id (pdev : pci_dev) : Nat := pdev.devid % 2 ^ 16

/-- Function `viommu_parse_pci`: `none` is `false` (epid untouched), `some e`
is `true` with `e` written to `*epid`.  Under the guard `devid >= start` the
difference is not negative, and the sum is a `u32`. -/
def viommu_parse_pci (L : topo_layout) (pdev : pci_dev) (cfg : viommu_topo_cfg) :
    Option Nat :=
  let devid := pci_dev_id pdev
  let type := le16_to_cpu cfg 0
  if type ≠ L.PCI_RANGE then none
  else
    let start := le16_to_cpu cfg L.requester_start
    let end_ := le16_to_cpu cfg L.requester_end
    let domain := le16_to_cpu cfg L.hierarchy
    let endpoint_start := le32_to_cpu cfg L.endpoint_start
    if pdev.domain_nr = (domain : Int) ∧ devid ≥ start ∧ devid ≤ end_ then
      some ((devid - start + endpoint_start) % 2 ^ 32)
    else none

/-- The inner loop of `virt_iommu_setup` over `cfg[0 .. num_items - 1]`: the
epid of the first record that matches. -/
def viommu_scan_items (L : topo_layout) (pdev : pci_dev) : List viommu_topo_cfg → Option Nat
  | [] => none
  | cfg :: rest =>
    match viommu_parse_pci L pdev cfg with
    | some epid => some epid
    | none => viommu_scan_items L pdev rest

/-- What the scan of `virt_iommu_setup` leaves in its locals when `found`. -/
structure viommu_found where
  viommu_ops : Option Nat
  viommu_fwnode : Option Nat
  viommu_dev : Nat
  epid : Nat
deriving DecidableEq, Repr

/-- The `list_for_each_entry` loop of `virt_iommu_setup`. -/
def viommu_scan (L : topo_layout) (pdev : pci_dev) : List viommu_spec → Option viommu_found
  | [] => none
  | viommu_spec :: rest =>
    match viommu_scan_items L pdev (viommu_spec.cfg.take viommu_spec.num_items) with
    | some epid =>
      some { viommu_ops := viommu_spec.ops, viommu_fwnode := viommu_spec.fwnode,
             viommu_dev := viommu_spec.dev, epid := epid }
    | none => viommu_scan L pdev rest

/-- Modelled from the spec: `pci_request_acs` (drivers/pci/pci.c) is not among
the sources; it is the one-way, idempotent signal to the bus layer. -/
def pci_request_acs (s : kstate) : kstate := { s with pci_acs_enable := true }

/-- Modelled from the spec: `iommu_fwspec_init` (drivers/iommu/iommu.c) is not
among the sources.  It binds the device's translation context to the given
identity handle and resolver.  A device that already has a context keeps it,
and the call fails with `-EINVAL` unless that context carries the same
resolver; a fresh context needs an allocation (`-ENOMEM` when it fails) and
starts with no endpoint id. -/
def iommu_fwspec_init (mem : mem_env) (dev : device) (iommu_fwnode : Option Nat) (ops : Nat) :
    Int × device :=
  match dev.fwspec with
  | some fwspec => (if fwspec.ops = some ops then 0 else -EINVAL, dev)
  | none =>
    if mem.kzalloc_ok = false then (-ENOMEM, dev)
    else (0, { dev with fwspec := some { ops := some ops, iommu_fwnode := iommu_fwnode,
                                         ids := [] } })

/-- Modelled from the spec: `iommu_fwspec_add_ids` (drivers/iommu/iommu.c) is
not among the sources.  It appends endpoint ids to the device's translation
context; the context has room for one id, more need a reallocation. -/
def iommu_fwspec_add_ids (mem : mem_env) (dev : device) (ids : List Nat) : Int × device :=
  match dev.fwspec with
  | none => (-EINVAL, dev)
  | some fwspec =>
    if 1 < fwspec.ids.length + ids.length ∧ mem.krealloc_ok = false then (-ENOMEM, dev)
    else (0, { dev with fwspec := some { fwspec with ids := fwspec.ids ++ ids } })

/-- Function `virt_iommu_setup`: the returned pointer, the device and the
state after the call. -/
def virt_iommu_setup (L : topo_layout) (mem : mem_env) (s : kstate) (dev : device) :
    ops_ptr × device × kstate :=
  let fwspec := dev.fwspec
  -- Already translated?
  if (fwspec.bind fun f => f.ops).isSome then (ops_ptr.null, dev, s)
  else
    match dev.pci with
    | none => (ops_ptr.null, dev, s)
    | some pci_dev =>
      match viommu_scan L pci_dev s.viommus with
      | none => (ops_ptr.null, dev, s)
      | some m =>
        -- We are not translating ourselves.
        if m.viommu_dev = dev.addr then (ops_ptr.null, dev, s)
        else
          -- pci_dev is not NULL on this path, so ACS is requested
          let s1 := pci_request_acs s
          match m.viommu_ops with
          | none => (ops_ptr.err (-EPROBE_DEFER), dev, s1)
          | some viommu_ops =>
            let r := iommu_fwspec_init mem dev m.viommu_fwnode viommu_ops
            if r.1 ≠ 0 then (ops_ptr.err r.1, r.2, s1)
            else (ops_ptr.ops viommu_ops, (iommu_fwspec_add_ids mem r.2 [m.epid]).2, s1)

/-- Macro `IS_ERR_OR_NULL` of include/linux/err.h. -/
def IS_ERR_OR_NULL : ops_ptr → Bool
  | ops_ptr.ops _ => false
  | _ => true

/-- Macro `PTR_ERR` of include/linux/err.h, on a NULL or error pointer. -/
def PTR_ERR : ops_ptr → Int
  | ops_ptr.err e => e
  | _ => 0

/-- Modelled from the spec: `iommu_probe_device` (drivers/iommu/iommu.c) is not
among the sources; it is the deferred re-probe of the device. -/
def iommu_probe_device (dev : device) : device := { dev with probe_replayed := true }

/-- Modelled from the spec: `arch_setup_dma_ops` / `iommu_setup_dma_ops` are
not among the sources; they configure the generic DMA parameters. -/
def setup_dma_ops (dev : device) : device := { dev with dma_ops_set := true }

/-- Function `virt_dma_configure`. -/
def virt_dma_configure (L : topo_layout) (mem : mem_env) (s : kstate) (dev : device) :
    Int × device × kstate :=
  let r := virt_iommu_setup L mem s dev
  let iommu_ops := r.1
  if IS_ERR_OR_NULL iommu_ops then
    let ret := PTR_ERR iommu_ops
    if ret = -EPROBE_DEFER ∨ ret = 0 then (ret, r.2.1, r.2.2)
    else (0, r.2.1, r.2.2)
  else
    let dev1 := r.2.1
    let dev2 := if dev1.bus ∧ ¬ dev1.iommu_mapped then iommu_probe_device dev1 else dev1
    (0, setup_dma_ops dev2, r.2.2)

/-- Function `virt_set_iommu_ops` on the list: the first descriptor of the
transport device gets the resolver and, with it, the device's `fwnode`. -/
def virt_set_iommu_ops_list (dev : device) (ops : Option Nat) : List viommu_spec → List viommu_spec
  | [] => []
  | viommu_spec :: rest =>
    if viommu_spec.dev = dev.addr then
      { viommu_spec with ops := ops, fwnode := if ops.isSome then dev.fwnode else none } :: rest
    else viommu_spec :: virt_set_iommu_ops_list dev ops rest

/-- Function `virt_set_iommu_ops`. -/
def virt_set_iommu_ops (dev : device) (ops : Option Nat) (s : kstate) : kstate :=
  { s with viommus := virt_set_iommu_ops_list dev ops s.viommus }

/-! ## Concrete tables and devices used in the examples -/

/-- A register window with the given bytes from offset 0 on, zero elsewhere. -/
def window_of (bytes : List Nat) : Window := fun a => bytes.getD a 0

/-- A window in the layout `spec_layout`: header `{offset = 52, num_items,
item_length}` at bytes 40 .. 51, the table bytes from offset 52 on. -/
def table_window (num_items item_length : Nat) (table : List Nat) : Window :=
  window_of (List.replicate 40 0 ++ [52, 0, 0, 0] ++ [num_items, 0, 0, 0] ++
    [item_length, 0, 0, 0] ++ table)

/-- The range record `{start = 0x0008, end = 0x000F, hierarchy = 0,
endpointStart = 100}` in the layout `spec_layout`. -/
def range_8_15 : viommu_topo_cfg := [1, 0, 8, 0, 15, 0, 0, 0, 100, 0, 0, 0, 0, 0, 0, 0]

/-- The range record `{start = 0, end = 0x00FF, hierarchy = 0,
endpointStart = 1000}` in the layout `spec_layout`. -/
def range_0_255 : viommu_topo_cfg := [1, 0, 0, 0, 255, 0, 0, 0, 232, 3, 0, 0, 0, 0, 0, 0]

/-- A device as the driver first sees it: no translation context. -/
def fresh_device (addr : Nat) (fwnode : Option Nat) (pci : Option pci_dev) : device :=
  { addr := addr, fwnode := fwnode, pci := pci, fwspec := none, bus := true,
    iommu_mapped := false, probe_replayed := false, dma_ops_set := false }

/-- The empty registry, ACS not requested. -/
def empty_state : kstate := { viommus := [], pci_acs_enable := false }

/-- Every allocation succeeds. -/
def mem_ok : mem_env := { kzalloc_ok := true, krealloc_ok := true }

/-- Every allocation fails. -/
def mem_fail : mem_env := { kzalloc_ok := false, krealloc_ok := false }

/-- Transport device A (address 7). -/
def dev_A : device := fresh_device 7 (some 70) none

/-- Transport device B (address 9). -/
def dev_B : device := fresh_device 9 (some 90) none

/-- An endpoint: PCI device of domain 0 with requester id 0x000A. -/
def dev_D : device := fresh_device 1 none (some ⟨0, 10⟩)

/-- The registry after A's table (range `[0x0008, 0x000F]`) and then B's table
(range `[0, 0x00FF]`) are parsed, and both drivers bind (ops 700 and 900). -/
def state_A_then_B : kstate :=
  virt_set_iommu_ops dev_B (some 900) (virt_set_iommu_ops dev_A (some 700)
    (viommu_parse_topology spec_layout mem_ok dev_B (table_window 1 16 range_0_255)
      (viommu_parse_topology spec_layout mem_ok dev_A (table_window 1 16 range_8_15)
        empty_state).2).2)

/-- The range record `{start = 0x0100, end = 0x01FF, hierarchy = 0,
endpointStart = 0}` in the layout `spec_layout`. -/
def range_256_511 : viommu_topo_cfg := [1, 0, 0, 1, 255, 1, 0, 0, 0, 0, 0, 0, 0, 0, 0, 0]

/-- Transport device A when it sits itself at requester id 0x000A of domain 0. -/
def dev_A_pci : device := fresh_device 7 (some 70) (some ⟨0, 10⟩)

/-- The registry after A's table (range `[0x0008, 0x000F]`) is parsed; no
driver is bound. -/
def state_A : kstate :=
  (viommu_parse_topology spec_layout mem_ok dev_A (table_window 1 16 range_8_15) empty_state).2

/-- The registry after two tables are parsed for the same transport device A:
first the range `[0x0008, 0x000F]`, then the range `[0x0100, 0x01FF]`. -/
def state_A_twice : kstate :=
  (viommu_parse_topology spec_layout mem_ok dev_A (table_window 1 16 range_256_511) state_A).2

/-- A window whose header is `{offset = 0xFFFFFFFC, num_items = 2,
item_length = 4}` (layout `spec_layout`), with byte 1 at offset `2 ^ 32` and
zero bytes everywhere else outside the header. -/
def wrap_window : Window := fun a =>
  if a = 4294967296 then 1
  else (List.replicate 40 0 ++ [252, 255, 255, 255] ++ [2, 0, 0, 0] ++ [4, 0, 0, 0]).getD a 0

/-- An endpoint that is already translated (its fwspec carries ops 555): PCI
device of domain 0 with requester id 0x000A. -/
def dev_D_translated : device :=
  { fresh_device 2 none (some ⟨0, 10⟩) with
    fwspec := some { ops := some 555, iommu_fwnode := none, ids := [5] } }

/-- The registry after A's table (range `[0x0008, 0x000F]`) is parsed and A's
driver binds ops 700. -/
def state_A_bound : kstate := virt_set_iommu_ops dev_A (some 700) state_A

/-- The registry after the same table of A (range `[0x0008, 0x000F]`) is
parsed twice from the empty registry. -/
def state_A_same_twice : kstate :=
  (viommu_parse_topology spec_layout mem_ok dev_A (table_window 1 16 range_8_15) state_A).2

/-- An endpoint whose fwspec exists but carries no ops: PCI device of domain 0
with requester id 0x000A. -/
def dev_D_stale : device :=
  { fresh_device 3 none (some ⟨0, 10⟩) with
    fwspec := some { ops := none, iommu_fwnode := none, ids := [] } }

/-! ## Register reads and call sequences -/

/-- The window offsets that `viommu_ccopy` hands to `ioread32`, in program
order: none on the `WARN_ON` branch, else one per word. -/
def viommu_ccopy_reads (src : Nat) (length : Nat) : List Nat :=
  if length % 4 ≠ 0 then [] else (List.range (length / 4)).map fun i => src + 4 * i

/-- The reads of the copy loop of `viommu_parse_topology`, item by item. -/
def viommu_copy_items_reads (L : topo_layout) (item_length : Nat) :
    Nat → Nat → List (List Nat)
  | 0, _ => []
  | n + 1, offset =>
    viommu_ccopy_reads offset (min item_length L.cfg_size) ::
      viommu_copy_items_reads L item_length n ((offset + item_length) % 2 ^ 32)

/-- The table reads of `viommu_parse_topology`, item by item, after the three
header reads: none when the function returns before the copy loop. -/
def viommu_parse_topology_reads (L : topo_layout) (mem : mem_env) (w : Window) :
    List (List Nat) :=
  let offset := ioread32 w L.topo_offset
  let item_length := ioread32 w L.topo_item_length
  let num_items := ioread32 w L.topo_num_items
  if offset = 0 ∨ num_items = 0 ∨ item_length = 0 then []
  else if mem.kzalloc_ok = false then []
  else viommu_copy_items_reads L item_length num_items offset

/-- A call of one of the two functions that write the registry. -/
inductive registry_op where
  | parse (mem : mem_env) (dev : device) (w : Window) : registry_op
  | set_ops (dev : device) (ops : Option Nat) : registry_op

/-- The state after one such call. -/
def apply_op (L : topo_layout) (s : kstate) : registry_op → kstate
  | registry_op.parse mem dev w => (viommu_parse_topology L mem dev w s).2
  | registry_op.set_ops dev ops => virt_set_iommu_ops dev ops s

/-- The state after a sequence of such calls, first call first. -/
def run_ops (L : topo_layout) (ops : List registry_op) (s : kstate) : kstate :=
  ops.foldl (apply_op L) s

/-- A call that binds a resolver does so for a device that has a fwnode. -/
def op_has_fwnode : registry_op → Prop
  | registry_op.parse _ _ _ => True
  | registry_op.set_ops dev ops => ops.isSome = true → dev.fwnode.isSome = true

/-- Transport device N (address 11) without a fwnode. -/
def dev_N : device := fresh_device 11 none none

/-- The range record `{start = 0, end = 0xFFFF, hierarchy = 0,
endpointStart = 0xFFFFFFFF}` in the layout `spec_layout`. -/
def range_all_top : viommu_topo_cfg :=
  [1, 0, 0, 0, 255, 255, 0, 0, 255, 255, 255, 255, 0, 0, 0, 0]

/-- An endpoint outside every range used here: PCI device of domain 0 with
requester id 0x0010. -/
def dev_E : device := fresh_device 4 none (some ⟨0, 16⟩)

/-- A platform device (not PCI). -/
def dev_P : device := fresh_device 5 none none

/-- The registry after a two-record table of A is parsed (first the range
`[0x0008, 0x000F]`, then the range `[0, 0x00FF]`) and A's driver binds ops
700. -/
def state_A_two_records : kstate :=
  virt_set_iommu_ops dev_A (some 700)
    (viommu_parse_topology spec_layout mem_ok dev_A
      (table_window 2 16 (range_8_15 ++ range_0_255)) empty_state).2

/-- The local `read_length` of `viommu_parse_topology`, for the header read
from the window. -/
def viommu_read_length (L : topo_layout) (w : Window) : Nat :=
  min (ioread32 w L.topo_item_length) L.cfg_size

/-- The value of the `u32` local `offset` of `viommu_parse_topology` when item
`i` is copied. -/
def viommu_item_offset (L : topo_layout) (w : Window) (i : Nat) : Nat :=
  (ioread32 w L.topo_offset + i * ioread32 w L.topo_item_length) % 2 ^ 32

/-- What stays of a descriptor: transport device, record count, records. -/
def viommu_spec_records (d : viommu_spec) : Nat × Nat × List viommu_topo_cfg :=
  (d.dev, d.num_items, d.cfg)

/-! # Theorems -/

/-! ## Lemmas on the byte accessors -/

theorem cfg_byte_zero_cfg (L : topo_layout) (k : Nat) : cfg_byte (zero_cfg L) k = 0 := by
  unfold cfg_byte zero_cfg
  rw [List.getD_eq_getElem?_getD, List.getElem?_replicate]
  split <;> simp

theorem le16_to_cpu_zero_cfg (L : topo_layout) (off : Nat) : le16_to_cpu (zero_cfg L) off = 0 := by
  simp [le16_to_cpu, cfg_byte_zero_cfg]

/-! ## C1: the matching rule of `viommu_parse_pci` -/

/-- C1: `viommu_parse_pci` returns true exactly when the record's kind tag is
the PCI-range kind, the device's PCI domain number equals the record's
hierarchy field and `requester_start <= devid <= requester_end`; a record of
any other kind never matches, and neither does an all-zero record (the range
kind being non-zero). -/
theorem viommu_parse_pci_true_iff (L : topo_layout) (pdev : pci_dev) (cfg : viommu_topo_cfg) :
    ((viommu_parse_pci L pdev cfg).isSome = true ↔
      le16_to_cpu cfg 0 = L.PCI_RANGE ∧
      pdev.domain_nr = (le16_to_cpu cfg L.hierarchy : Int) ∧
      le16_to_cpu cfg L.requester_start ≤ pci_dev_id pdev ∧
      pci_dev_id pdev ≤ le16_to_cpu cfg L.requester_end) ∧
    (le16_to_cpu cfg 0 ≠ L.PCI_RANGE → viommu_parse_pci L pdev cfg = none) ∧
    (L.PCI_RANGE ≠ 0 → viommu_parse_pci L pdev (zero_cfg L) = none) := by
  refine ⟨?_, ?_, ?_⟩
  · simp only [viommu_parse_pci]
    split_ifs with h1 h2
    · simp [h1]
    · simp only [Option.isSome_some, true_iff]
      exact ⟨not_not.mp h1, h2.1, h2.2.1, h2.2.2⟩
    · simp only [Option.isSome_none, Bool.false_eq_true, false_iff]
      exact fun h => h2 ⟨h.2.1, h.2.2.1, h.2.2.2⟩
  · intro ht
    unfold viommu_parse_pci
    simp [ht]
  · intro h0
    unfold viommu_parse_pci
    have : le16_to_cpu (zero_cfg L) 0 ≠ L.PCI_RANGE := by
      rw [le16_to_cpu_zero_cfg]; exact fun h => h0 h.symm
    simp [this]

/-- C1 at the range `[0x0008, 0x000F]` of hierarchy 0: requester 0x000A
matches, and an endpoint-kind record (tag 2) with the same bytes does not. -/
theorem viommu_parse_pci_true_iff_witness :
    (viommu_parse_pci spec_layout ⟨0, 10⟩ range_8_15).isSome = true ∧
    viommu_parse_pci spec_layout ⟨0, 10⟩ [2, 0, 8, 0, 15, 0, 0, 0, 100, 0, 0, 0, 0, 0, 0, 0] = none ∧
    viommu_parse_pci spec_layout ⟨0, 10⟩ (zero_cfg spec_layout) = none :=
  ⟨(viommu_parse_pci_true_iff spec_layout ⟨0, 10⟩ range_8_15).1.2
      ⟨by decide, by decide, by decide, by decide⟩,
   (viommu_parse_pci_true_iff spec_layout ⟨0, 10⟩
      [2, 0, 8, 0, 15, 0, 0, 0, 100, 0, 0, 0, 0, 0, 0, 0]).2.1 (by decide),
   (viommu_parse_pci_true_iff spec_layout ⟨0, 10⟩ range_8_15).2.2 (by decide)⟩


/-! ## Lemmas on the registry scan and on the resolver's branches -/

theorem viommu_scan_cons_of_some (L : topo_layout) (pdev : pci_dev) (B : viommu_spec)
    (rest : List viommu_spec) (e : Nat)
    (h : viommu_scan_items L pdev (B.cfg.take B.num_items) = some e) :
    viommu_scan L pdev (B :: rest) =
      some { viommu_ops := B.ops, viommu_fwnode := B.fwnode, viommu_dev := B.dev, epid := e } := by
  simp [viommu_scan, h]

theorem viommu_scan_cons_of_none (L : topo_layout) (pdev : pci_dev) (B : viommu_spec)
    (rest : List viommu_spec)
    (h : viommu_scan_items L pdev (B.cfg.take B.num_items) = none) :
    viommu_scan L pdev (B :: rest) = viommu_scan L pdev rest := by
  simp [viommu_scan, h]

theorem viommu_scan_append_of_none (L : topo_layout) (pdev : pci_dev)
    (pre rest : List viommu_spec)
    (h : ∀ d ∈ pre, viommu_scan_items L pdev (d.cfg.take d.num_items) = none) :
    viommu_scan L pdev (pre ++ rest) = viommu_scan L pdev rest := by
  induction pre with
  | nil => rfl
  | cons d pre ih =>
    rw [List.cons_append, viommu_scan_cons_of_none L pdev d _ (h d (List.mem_cons_self _ _))]
    exact ih (fun x hx => h x (List.mem_cons_of_mem _ hx))

theorem viommu_parse_topology_registers (L : topo_layout) (mem : mem_env) (dev : device)
    (w : Window) (s : kstate)
    (ho : ioread32 w L.topo_offset ≠ 0) (hn : ioread32 w L.topo_num_items ≠ 0)
    (hl : ioread32 w L.topo_item_length ≠ 0) (hm : mem.kzalloc_ok = true) :
    viommu_parse_topology L mem dev w s =
      (0, { s with viommus := viommu_new_spec L dev w :: s.viommus }) := by
  simp [viommu_parse_topology, ho, hn, hl, hm]

theorem virt_iommu_setup_self (L : topo_layout) (mem : mem_env) (s : kstate) (dev : device)
    (pdev : pci_dev) (m : viommu_found) (hpci : dev.pci = some pdev)
    (hscan : viommu_scan L pdev s.viommus = some m) (hself : m.viommu_dev = dev.addr) :
    virt_iommu_setup L mem s dev = (ops_ptr.null, dev, s) := by
  unfold virt_iommu_setup
  simp only [hpci, hscan, hself]
  split <;> simp

theorem virt_iommu_setup_deferred (L : topo_layout) (mem : mem_env) (s : kstate) (dev : device)
    (pdev : pci_dev) (m : viommu_found)
    (hnt : (dev.fwspec.bind fun f => f.ops).isSome = false) (hpci : dev.pci = some pdev)
    (hscan : viommu_scan L pdev s.viommus = some m) (hne : m.viommu_dev ≠ dev.addr)
    (hops : m.viommu_ops = none) :
    virt_iommu_setup L mem s dev = (ops_ptr.err (-EPROBE_DEFER), dev, pci_request_acs s) := by
  unfold virt_iommu_setup
  simp [hnt, hpci, hscan, hne, hops]

theorem virt_iommu_setup_resolved (L : topo_layout) (mem : mem_env) (s : kstate) (dev : device)
    (pdev : pci_dev) (m : viommu_found) (R : Nat)
    (hdev : dev.fwspec = none) (hpci : dev.pci = some pdev)
    (hscan : viommu_scan L pdev s.viommus = some m) (hne : m.viommu_dev ≠ dev.addr)
    (hops : m.viommu_ops = some R) (hmem : mem.kzalloc_ok = true) :
    virt_iommu_setup L mem s dev =
      (ops_ptr.ops R,
       { dev with fwspec := some { ops := some R, iommu_fwnode := m.viommu_fwnode,
                                   ids := [m.epid] } },
       pci_request_acs s) := by
  unfold virt_iommu_setup
  simp [hdev, hpci, hscan, hne, hops, hmem, iommu_fwspec_init, iommu_fwspec_add_ids]

/-! ## C2: order of the registry traversal -/

/-- C2 (amended): the registry is traversed most recently registered first.
When B's table is parsed after A's and B holds a range record matching the
device, `virt_iommu_setup` resolves the device against B (B's resolver, B's
identity, the endpoint id of B's first matching record), whatever A's table
holds, in particular when A matches the device too. -/
theorem virt_iommu_setup_last_registered_first (L : topo_layout) (memA memB mem : mem_env)
    (A B : device) (wA wB : Window) (RA RB : Nat) (s : kstate) (dev : device)
    (pdev : pci_dev) (eB : Nat)
    (ho : ioread32 wB L.topo_offset ≠ 0) (hn : ioread32 wB L.topo_num_items ≠ 0)
    (hl : ioread32 wB L.topo_item_length ≠ 0) (hmB : memB.kzalloc_ok = true)
    (hdev : dev.fwspec = none) (hpci : dev.pci = some pdev) (hne : dev.addr ≠ B.addr)
    (hmem : mem.kzalloc_ok = true)
    (hB : viommu_scan_items L pdev
      ((viommu_new_spec L B wB).cfg.take (viommu_new_spec L B wB).num_items) = some eB) :
    virt_iommu_setup L mem
        (virt_set_iommu_ops B (some RB) (virt_set_iommu_ops A (some RA)
          (viommu_parse_topology L memB B wB (viommu_parse_topology L memA A wA s).2).2))
        dev =
      (ops_ptr.ops RB,
       { dev with fwspec := some { ops := some RB, iommu_fwnode := B.fwnode, ids := [eB] } },
       pci_request_acs
        (virt_set_iommu_ops B (some RB) (virt_set_iommu_ops A (some RA)
          (viommu_parse_topology L memB B wB (viommu_parse_topology L memA A wA s).2).2))) := by
  rw [viommu_parse_topology_registers L memB B wB _ ho hn hl hmB]
  have hd : (viommu_new_spec L B wB).dev = B.addr := rfl
  have key : ∃ tail, (virt_set_iommu_ops B (some RB) (virt_set_iommu_ops A (some RA)
      { (viommu_parse_topology L memA A wA s).2 with
        viommus := viommu_new_spec L B wB :: (viommu_parse_topology L memA A wA s).2.viommus
      })).viommus =
      { viommu_new_spec L B wB with ops := some RB, fwnode := B.fwnode } :: tail := by
    by_cases hAB : B.addr = A.addr
    · exact ⟨(viommu_parse_topology L memA A wA s).2.viommus,
        by simp [virt_set_iommu_ops, virt_set_iommu_ops_list, hd, hAB]⟩
    · exact ⟨virt_set_iommu_ops_list A (some RA) (viommu_parse_topology L memA A wA s).2.viommus,
        by simp [virt_set_iommu_ops, virt_set_iommu_ops_list, hd, hAB]⟩
  obtain ⟨tail, htail⟩ := key
  have hscan := viommu_scan_cons_of_some L pdev
    { viommu_new_spec L B wB with ops := some RB, fwnode := B.fwnode } tail eB hB
  rw [← htail] at hscan
  exact virt_iommu_setup_resolved L mem _ dev pdev _ RB hdev hpci hscan
    (fun h => hne h.symm) rfl hmem


/-- C2 at A (range `[0x0008, 0x000F]`, parsed first) and B (range
`[0, 0x00FF]`, parsed second): requester 0x000A resolves against B. -/
theorem virt_iommu_setup_last_registered_first_witness :
    virt_iommu_setup spec_layout mem_ok state_A_then_B dev_D =
      (ops_ptr.ops 900,
       { dev_D with fwspec := some { ops := some 900, iommu_fwnode := dev_B.fwnode,
                                     ids := [1010] } },
       pci_request_acs state_A_then_B) :=
  virt_iommu_setup_last_registered_first spec_layout mem_ok mem_ok mem_ok dev_A dev_B
    (table_window 1 16 range_8_15) (table_window 1 16 range_0_255) 700 900 empty_state dev_D
    ⟨0, 10⟩ 1010 (by decide) (by decide) (by decide) rfl rfl rfl (by decide) rfl (by decide)

/-- C2 fails as stated: A is registered before B, both hold a range record
matching requester 0x000A of domain 0 (A's gives endpoint id 102, B's gives
1010), and `virt_iommu_setup` resolves the device against B, not A: the
registry is `[B, A]` and the result is B's ops 900 with id 1010. -/
theorem first_match_registration_order_counterexample :
    viommu_scan_items spec_layout ⟨0, 10⟩ [range_8_15] = some 102 ∧
    viommu_scan_items spec_layout ⟨0, 10⟩ [range_0_255] = some 1010 ∧
    state_A_then_B.viommus =
      [{ dev := 9, fwnode := some 90, ops := some 900, num_items := 1, cfg := [range_0_255] },
       { dev := 7, fwnode := some 70, ops := some 700, num_items := 1, cfg := [range_8_15] }] ∧
    (virt_iommu_setup spec_layout mem_ok state_A_then_B dev_D).1 = ops_ptr.ops 900 ∧
    (virt_iommu_setup spec_layout mem_ok state_A_then_B dev_D).1 ≠ ops_ptr.ops 700 ∧
    (virt_iommu_setup spec_layout mem_ok state_A_then_B dev_D).2.1.fwspec =
      some { ops := some 900, iommu_fwnode := some 90, ids := [1010] } := by
  refine ⟨by decide, by decide, by decide, by decide, by decide, by decide⟩


theorem virt_set_iommu_ops_list_append (dev : device) (ops : Option Nat)
    (pre post : List viommu_spec) (S : viommu_spec)
    (hpre : ∀ d ∈ pre, d.dev ≠ dev.addr) (hS : S.dev = dev.addr) :
    virt_set_iommu_ops_list dev ops (pre ++ S :: post) =
      pre ++ { S with ops := ops, fwnode := if ops.isSome then dev.fwnode else none } :: post := by
  induction pre with
  | nil => simp [virt_set_iommu_ops_list, hS]
  | cons d pre ih =>
    have hd : d.dev ≠ dev.addr := hpre d (List.mem_cons_self _ _)
    have ih2 := ih (fun x hx => hpre x (List.mem_cons_of_mem _ hx))
    rw [List.cons_append]
    show (if d.dev = dev.addr then _ else d :: virt_set_iommu_ops_list dev ops (pre ++ S :: post))
      = _
    rw [if_neg hd, ih2, List.cons_append]

theorem iommu_fwspec_init_ok (mem : mem_env) (dev : device) (fw : Option Nat) (R : Nat)
    (hnt : (dev.fwspec.bind fun f => f.ops).isSome = false)
    (hinit : (iommu_fwspec_init mem dev fw R).1 = 0) :
    dev.fwspec = none ∧ mem.kzalloc_ok = true := by
  unfold iommu_fwspec_init at hinit
  cases hf : dev.fwspec with
  | none =>
    refine ⟨rfl, ?_⟩
    cases hk : mem.kzalloc_ok with
    | true => rfl
    | false => simp [hf, hk, ENOMEM] at hinit
  | some f =>
    rw [hf] at hnt
    have hfo : f.ops = none := by
      cases ho : f.ops with
      | none => rfl
      | some o => simp [ho] at hnt
    simp [hf, hfo, EINVAL] at hinit

/-! ## C3: deferral on an unbound resolver -/

/-- C3 (amended): for a not-yet-translated PCI device whose first matching
record belongs to a descriptor with unbound resolver, `virt_iommu_setup`
returns `ERR_PTR(-EPROBE_DEFER)` when the device is not that descriptor's
transport device, and NULL when it is: the self-identity check is applied
before the unbound check. -/
theorem virt_iommu_setup_unbound (L : topo_layout) (mem : mem_env) (s : kstate) (dev : device)
    (pdev : pci_dev) (m : viommu_found)
    (hnt : (dev.fwspec.bind fun f => f.ops).isSome = false) (hpci : dev.pci = some pdev)
    (hscan : viommu_scan L pdev s.viommus = some m) (hops : m.viommu_ops = none) :
    virt_iommu_setup L mem s dev =
      if m.viommu_dev = dev.addr then (ops_ptr.null, dev, s)
      else (ops_ptr.err (-EPROBE_DEFER), dev, pci_request_acs s) := by
  by_cases hself : m.viommu_dev = dev.addr
  · rw [if_pos hself]
    exact virt_iommu_setup_self L mem s dev pdev m hpci hscan hself
  · rw [if_neg hself]
    exact virt_iommu_setup_deferred L mem s dev pdev m hnt hpci hscan hself hops

/-- C3 at the range `[0x0008, 0x000F]` of unbound A: requester 0x000A is
deferred. -/
theorem virt_iommu_setup_unbound_witness :
    virt_iommu_setup spec_layout mem_ok state_A dev_D =
      (ops_ptr.err (-EPROBE_DEFER), dev_D, pci_request_acs state_A) :=
  virt_iommu_setup_unbound spec_layout mem_ok state_A dev_D ⟨0, 10⟩
    { viommu_ops := none, viommu_fwnode := none, viommu_dev := 7, epid := 102 }
    (by decide) rfl (by decide) rfl

/-- C3 fails as stated: transport device A sits at requester id 0x000A, inside
the range of its own descriptor, whose resolver is unbound; the device is not
yet translated, and `virt_iommu_setup` returns NULL, not
`ERR_PTR(-EPROBE_DEFER)`. -/
theorem deferred_before_self_check_counterexample :
    (dev_A_pci.fwspec.bind fun f => f.ops).isSome = false ∧
    dev_A_pci.pci = some ⟨0, 10⟩ ∧
    viommu_scan spec_layout ⟨0, 10⟩ state_A.viommus =
      some { viommu_ops := none, viommu_fwnode := none, viommu_dev := 7, epid := 102 } ∧
    virt_iommu_setup spec_layout mem_ok state_A dev_A_pci = (ops_ptr.null, dev_A_pci, state_A) ∧
    (virt_iommu_setup spec_layout mem_ok state_A dev_A_pci).1 ≠ ops_ptr.err (-EPROBE_DEFER) := by
  refine ⟨by decide, by decide, by decide, by decide, by decide⟩

/-! ## C4: deferral, then success once the resolver is bound -/

/-- C4 (amended): let S be the first descriptor with a record matching the
not-yet-translated PCI device D, let S be unbound, D not its transport device
T, and let no descriptor ahead of S in the registry have the same transport
device T.  Then `virt_iommu_setup` on D returns `ERR_PTR(-EPROBE_DEFER)` and
leaves D unchanged; after `virt_set_iommu_ops(T, R)`, with
`iommu_fwspec_init` succeeding, the same query returns R and binds D to R,
T's fwnode and exactly the one endpoint id computed from the same record. -/
theorem virt_iommu_setup_deferred_then_resolved (L : topo_layout) (mem mem2 : mem_env)
    (s : kstate) (pre post : List viommu_spec) (S : viommu_spec) (dev T : device)
    (pdev : pci_dev) (R e : Nat)
    (hs : s.viommus = pre ++ S :: post)
    (hnt : (dev.fwspec.bind fun f => f.ops).isSome = false) (hpci : dev.pci = some pdev)
    (hpre : ∀ d ∈ pre, viommu_scan_items L pdev (d.cfg.take d.num_items) = none)
    (hS : viommu_scan_items L pdev (S.cfg.take S.num_items) = some e)
    (hops : S.ops = none) (hself : S.dev ≠ dev.addr) (hT : S.dev = T.addr)
    (hfirst : ∀ d ∈ pre, d.dev ≠ T.addr)
    (hinit : (iommu_fwspec_init mem2 dev T.fwnode R).1 = 0) :
    virt_iommu_setup L mem s dev = (ops_ptr.err (-EPROBE_DEFER), dev, pci_request_acs s) ∧
    virt_iommu_setup L mem2
        (virt_set_iommu_ops T (some R) (virt_iommu_setup L mem s dev).2.2)
        (virt_iommu_setup L mem s dev).2.1 =
      (ops_ptr.ops R,
       { dev with fwspec := some { ops := some R, iommu_fwnode := T.fwnode, ids := [e] } },
       pci_request_acs (virt_set_iommu_ops T (some R) (pci_request_acs s))) := by
  have hscan : viommu_scan L pdev s.viommus =
      some { viommu_ops := S.ops, viommu_fwnode := S.fwnode, viommu_dev := S.dev, epid := e } := by
    rw [hs, viommu_scan_append_of_none L pdev pre _ hpre]
    exact viommu_scan_cons_of_some L pdev S post e hS
  have h1 := virt_iommu_setup_deferred L mem s dev pdev _ hnt hpci hscan hself hops
  refine ⟨h1, ?_⟩
  rw [h1]
  obtain ⟨hnone, hmem⟩ := iommu_fwspec_init_ok mem2 dev T.fwnode R hnt hinit
  have hlist : (virt_set_iommu_ops T (some R) (pci_request_acs s)).viommus =
      pre ++ { S with ops := some R, fwnode := T.fwnode } :: post := by
    simp only [virt_set_iommu_ops, pci_request_acs, hs]
    rw [virt_set_iommu_ops_list_append T (some R) pre post S hfirst hT]
    simp
  have hscan2 : viommu_scan L pdev (virt_set_iommu_ops T (some R) (pci_request_acs s)).viommus =
      some { viommu_ops := some R, viommu_fwnode := T.fwnode, viommu_dev := S.dev, epid := e } := by
    rw [hlist, viommu_scan_append_of_none L pdev pre _ hpre]
    exact viommu_scan_cons_of_some L pdev { S with ops := some R, fwnode := T.fwnode } post e hS
  exact virt_iommu_setup_resolved L mem2 _ dev pdev _ R hnone hpci hscan2 hself rfl hmem

/-- C4 at the spec's scenario: range `{start = 0x0008, end = 0x000F,
hierarchy = 0, endpointStart = 100}` of A, requester 0x000A: deferred, then
resolved to ops 700 with endpoint id 102. -/
theorem virt_iommu_setup_deferred_then_resolved_witness :
    virt_iommu_setup spec_layout mem_ok state_A dev_D =
      (ops_ptr.err (-EPROBE_DEFER), dev_D, pci_request_acs state_A) ∧
    virt_iommu_setup spec_layout mem_ok
        (virt_set_iommu_ops dev_A (some 700)
          (virt_iommu_setup spec_layout mem_ok state_A dev_D).2.2)
        (virt_iommu_setup spec_layout mem_ok state_A dev_D).2.1 =
      (ops_ptr.ops 700,
       { dev_D with fwspec := some { ops := some 700, iommu_fwnode := dev_A.fwnode,
                                     ids := [102] } },
       pci_request_acs (virt_set_iommu_ops dev_A (some 700) (pci_request_acs state_A))) :=
  virt_iommu_setup_deferred_then_resolved spec_layout mem_ok mem_ok state_A []
    [] { dev := 7, fwnode := none, ops := none, num_items := 1, cfg := [range_8_15] }
    dev_D dev_A ⟨0, 10⟩ 700 102 (by decide) (by decide) rfl (by simp) (by decide) rfl
    (by decide) rfl (by simp) (by decide)

/-- C4 fails as stated: two tables were parsed for transport device A, so the
registry holds two descriptors of A; the first record matching requester
0x000A belongs to the older one, which `virt_set_iommu_ops(A, 700)` does not
reach (it binds the newer one and stops).  The query is deferred before the
binding and still deferred after it, although `iommu_fwspec_init` would
succeed. -/
theorem deferral_then_success_counterexample :
    (dev_D.fwspec.bind fun f => f.ops).isSome = false ∧
    viommu_scan spec_layout ⟨0, 10⟩ state_A_twice.viommus =
      some { viommu_ops := none, viommu_fwnode := none, viommu_dev := dev_A.addr, epid := 102 } ∧
    dev_D.addr ≠ dev_A.addr ∧
    (iommu_fwspec_init mem_ok dev_D dev_A.fwnode 700).1 = 0 ∧
    (virt_iommu_setup spec_layout mem_ok state_A_twice dev_D).1 = ops_ptr.err (-EPROBE_DEFER) ∧
    (virt_iommu_setup spec_layout mem_ok
        (virt_set_iommu_ops dev_A (some 700)
          (virt_iommu_setup spec_layout mem_ok state_A_twice dev_D).2.2)
        (virt_iommu_setup spec_layout mem_ok state_A_twice dev_D).2.1).1 =
      ops_ptr.err (-EPROBE_DEFER) := by
  refine ⟨by decide, by decide, by decide, by decide, by decide, by decide⟩


/-! ## Lemmas on the word copy -/

theorem ioread32_lt (w : Window) (a : Nat) : ioread32 w a < 2 ^ 32 := by
  unfold ioread32; omega

theorem ioread32_byte0 (w : Window) (a : Nat) : ioread32 w a % 256 = w a % 256 := by
  unfold ioread32; omega

theorem ioread32_byte1 (w : Window) (a : Nat) : ioread32 w a / 256 % 256 = w (a + 1) % 256 := by
  unfold ioread32; omega

theorem ioread32_byte2 (w : Window) (a : Nat) :
    ioread32 w a / 65536 % 256 = w (a + 2) % 256 := by
  unfold ioread32; omega

theorem ioread32_byte3 (w : Window) (a : Nat) :
    ioread32 w a / 16777216 % 256 = w (a + 3) % 256 := by
  unfold ioread32; omega

theorem getD_set_nat (l : List Nat) (i j a : Nat) :
    (l.set i a).getD j 0 = if i = j ∧ j < l.length then a else l.getD j 0 := by
  simp only [List.getD_eq_getElem?_getD, List.getElem?_set]
  by_cases h : i = j
  · subst h
    by_cases hl : i < l.length
    · simp [hl]
    · simp [hl, List.getElem?_eq_none (Nat.le_of_not_lt hl)]
  · simp [h]

theorem store_le32_length (dst : viommu_topo_cfg) (i v : Nat) :
    (store_le32 dst i v).length = dst.length := by
  simp [store_le32]

theorem store_le32_ioread32_getD (w : Window) (a : Nat) (dst : viommu_topo_cfg) (i k : Nat) :
    (store_le32 dst i (ioread32 w a)).getD k 0 =
      if k < dst.length ∧ 4 * i ≤ k ∧ k < 4 * i + 4 then w (a + (k - 4 * i)) % 256
      else dst.getD k 0 := by
  unfold store_le32
  simp only [getD_set_nat, List.length_set, ioread32_byte0, ioread32_byte1, ioread32_byte2,
    ioread32_byte3]
  by_cases hk : k < dst.length
  · rcases (by omega : k = 4 * i ∨ k = 4 * i + 1 ∨ k = 4 * i + 2 ∨ k = 4 * i + 3 ∨
        k < 4 * i ∨ 4 * i + 4 ≤ k) with h | h | h | h | h | h
    · subst h; simp [hk]
    · subst h; simp [hk]
    · subst h; simp [hk]
    · subst h; simp [hk]
    · have h0 : ¬ (4 * i = k) := by omega
      have h1 : ¬ (4 * i + 1 = k) := by omega
      have h2 : ¬ (4 * i + 2 = k) := by omega
      have h3 : ¬ (4 * i + 3 = k) := by omega
      have h4 : ¬ (4 * i ≤ k) := by omega
      simp [h0, h1, h2, h3, h4]
    · have h0 : ¬ (4 * i = k) := by omega
      have h1 : ¬ (4 * i + 1 = k) := by omega
      have h2 : ¬ (4 * i + 2 = k) := by omega
      have h3 : ¬ (4 * i + 3 = k) := by omega
      have h4 : ¬ (k < 4 * i + 4) := by omega
      simp [h0, h1, h2, h3, h4]
  · simp [hk]

theorem viommu_ccopy_loop_length (w : Window) (src n : Nat) (dst : viommu_topo_cfg) :
    (viommu_ccopy_loop w src n dst).length = dst.length := by
  induction n with
  | zero => rfl
  | succ n ih => simp [viommu_ccopy_loop, store_le32_length, ih]

theorem viommu_ccopy_loop_getD (w : Window) (src n : Nat) (dst : viommu_topo_cfg) (k : Nat) :
    (viommu_ccopy_loop w src n dst).getD k 0 =
      if k < dst.length ∧ k < 4 * n then w (src + k) % 256 else dst.getD k 0 := by
  induction n with
  | zero => simp [viommu_ccopy_loop]
  | succ n ih =>
    rw [viommu_ccopy_loop, store_le32_ioread32_getD, viommu_ccopy_loop_length, ih]
    by_cases hk : k < dst.length
    · by_cases h1 : 4 * n ≤ k
      · by_cases h2 : k < 4 * n + 4
        · have e : src + 4 * n + (k - 4 * n) = src + k := by omega
          have h3 : k < 4 * (n + 1) := by omega
          simp [hk, h1, h2, h3, e]
        · have h3 : ¬ k < 4 * (n + 1) := by omega
          have h4 : ¬ k < 4 * n := by omega
          simp [h2, h3, h4]
      · have h3 : k < 4 * (n + 1) := by omega
        have h4 : k < 4 * n := by omega
        simp [hk, h1, h3, h4]
    · simp [hk]

theorem viommu_ccopy_length (w : Window) (dst : viommu_topo_cfg) (src length : Nat) :
    (viommu_ccopy w dst src length).length = dst.length := by
  unfold viommu_ccopy
  split
  · rfl
  · exact viommu_ccopy_loop_length w src _ dst

theorem viommu_ccopy_byte (L : topo_layout) (w : Window) (src length k : Nat)
    (h4 : length % 4 = 0) :
    cfg_byte (viommu_ccopy w (zero_cfg L) src length) k =
      if k < L.cfg_size ∧ k < length then w (src + k) % 256 else 0 := by
  have hz : (zero_cfg L).getD k 0 = 0 := by
    unfold zero_cfg
    rw [List.getD_eq_getElem?_getD, List.getElem?_replicate]
    split <;> simp
  have hlen : (zero_cfg L).length = L.cfg_size := by simp [zero_cfg]
  have hdiv : 4 * (length / 4) = length := by omega
  unfold cfg_byte viommu_ccopy
  rw [if_neg (by simp [h4]), viommu_ccopy_loop_getD, hlen, hdiv, hz]
  split
  · exact Nat.mod_mod _ _
  · rfl

theorem viommu_ccopy_tag (L : topo_layout) (w : Window) (src length : Nat)
    (h4 : length % 4 = 0) (hpos : 0 < length) (hsz : 4 ≤ L.cfg_size) :
    le16_to_cpu (viommu_ccopy w (zero_cfg L) src length) 0 =
      w src % 256 + 256 * (w (src + 1) % 256) := by
  unfold le16_to_cpu
  rw [viommu_ccopy_byte L w src length 0 h4, viommu_ccopy_byte L w src length (0 + 1) h4]
  have h1 : (0 < L.cfg_size ∧ 0 < length) := ⟨by omega, hpos⟩
  have h2 : (0 + 1 < L.cfg_size ∧ 0 + 1 < length) := ⟨by omega, by omega⟩
  rw [if_pos h1, if_pos h2]
  simp

/-! ## Lemmas on the item loop -/

theorem viommu_copy_items_length (L : topo_layout) (w : Window) (il n offset : Nat) :
    (viommu_copy_items L w il n offset).length = n := by
  induction n generalizing offset with
  | zero => rfl
  | succ n ih => simp [viommu_copy_items, ih]

theorem viommu_copy_items_getD (L : topo_layout) (w : Window) (il n offset i : Nat)
    (ho : offset < 2 ^ 32) (hi : i < n) :
    (viommu_copy_items L w il n offset).getD i [] =
      viommu_ccopy w (zero_cfg L) ((offset + i * il) % 2 ^ 32) (min il L.cfg_size) := by
  induction n generalizing offset i with
  | zero => omega
  | succ n ih =>
    cases i with
    | zero =>
      have e : (offset + 0 * il) % 2 ^ 32 = offset := by
        rw [Nat.zero_mul, Nat.add_zero]; exact Nat.mod_eq_of_lt ho
      rw [e]
      simp [viommu_copy_items]
    | succ i =>
      have hlt : (offset + il) % 2 ^ 32 < 2 ^ 32 := Nat.mod_lt _ (by norm_num)
      have := ih ((offset + il) % 2 ^ 32) i hlt (by omega)
      have e : ((offset + il) % 2 ^ 32 + i * il) % 2 ^ 32 = (offset + (i + 1) * il) % 2 ^ 32 := by
        rw [Nat.succ_mul]
        omega
      rw [e] at this
      simpa [viommu_copy_items] using this

theorem viommu_copy_items_unaligned (L : topo_layout) (w : Window) (il n offset : Nat)
    (h : min il L.cfg_size % 4 ≠ 0) :
    viommu_copy_items L w il n offset = List.replicate n (zero_cfg L) := by
  induction n generalizing offset with
  | zero => rfl
  | succ n ih =>
    simp only [viommu_copy_items, viommu_ccopy, h, ne_eq, not_false_eq_true, if_true, ih,
      List.replicate_succ]


/-! ## C5: record count and kind tags of a parsed table -/

/-- C5 (amended): for every header with offset, item_length and num_items
non-zero and `item_length % 4 == 0`: when the allocation of the descriptor
succeeds, `viommu_parse_topology` returns 0 and registers a descriptor of the
transport device with exactly num_items records, and for every `i < num_items`
the kind tag of record i equals the first two bytes of the window at the `u32`
offset `(offset + i * item_length) mod 2 ^ 32`; when the allocation fails it
returns `-ENOMEM` and registers nothing. -/
theorem viommu_parse_topology_count_and_tags (L : topo_layout) (mem : mem_env) (dev : device)
    (w : Window) (s : kstate) (hL : L.wf)
    (ho : ioread32 w L.topo_offset ≠ 0) (hn : ioread32 w L.topo_num_items ≠ 0)
    (hl : ioread32 w L.topo_item_length ≠ 0) (h4 : ioread32 w L.topo_item_length % 4 = 0) :
    (mem.kzalloc_ok = true →
      viommu_parse_topology L mem dev w s =
        (0, { s with viommus := viommu_new_spec L dev w :: s.viommus }) ∧
      (viommu_new_spec L dev w).dev = dev.addr ∧
      (viommu_new_spec L dev w).num_items = ioread32 w L.topo_num_items ∧
      (viommu_new_spec L dev w).cfg.length = ioread32 w L.topo_num_items ∧
      ∀ i, i < ioread32 w L.topo_num_items →
        le16_to_cpu ((viommu_new_spec L dev w).cfg.getD i []) 0 =
          w ((ioread32 w L.topo_offset + i * ioread32 w L.topo_item_length) % 2 ^ 32) % 256 +
          256 * (w ((ioread32 w L.topo_offset + i * ioread32 w L.topo_item_length) % 2 ^ 32 + 1)
            % 256) ∧
        (ioread32 w L.topo_offset + i * ioread32 w L.topo_item_length < 2 ^ 32 →
          le16_to_cpu ((viommu_new_spec L dev w).cfg.getD i []) 0 =
            w (ioread32 w L.topo_offset + i * ioread32 w L.topo_item_length) % 256 +
            256 * (w (ioread32 w L.topo_offset + i * ioread32 w L.topo_item_length + 1) % 256))) ∧
    (mem.kzalloc_ok = false → viommu_parse_topology L mem dev w s = (-ENOMEM, s)) := by
  obtain ⟨hpos, hsz4, -⟩ := hL
  constructor
  · intro hm
    refine ⟨viommu_parse_topology_registers L mem dev w s ho hn hl hm, rfl, rfl,
      viommu_copy_items_length L w _ _ _, ?_⟩
    intro i hi
    have htag : le16_to_cpu ((viommu_new_spec L dev w).cfg.getD i []) 0 =
        w ((ioread32 w L.topo_offset + i * ioread32 w L.topo_item_length) % 2 ^ 32) % 256 +
        256 * (w ((ioread32 w L.topo_offset + i * ioread32 w L.topo_item_length) % 2 ^ 32 + 1)
          % 256) := by
      show le16_to_cpu ((viommu_copy_items L w _ _ _).getD i []) 0 = _
      rw [viommu_copy_items_getD L w _ _ _ i (ioread32_lt w _) hi]
      apply viommu_ccopy_tag
      · rcases Nat.le_total (ioread32 w L.topo_item_length) L.cfg_size with h | h
        · rw [Nat.min_eq_left h]; exact h4
        · rw [Nat.min_eq_right h]; exact hsz4
      · exact Nat.lt_min.mpr ⟨Nat.pos_of_ne_zero hl, hpos⟩
      · omega
    refine ⟨htag, fun hlt => ?_⟩
    rw [htag, Nat.mod_eq_of_lt hlt]
  · intro hm
    simp [viommu_parse_topology, ho, hn, hl, hm]

/-- C5 at a one-item table holding the range `[0x0008, 0x000F]`: the
descriptor is registered at the head of the empty registry. -/
theorem viommu_parse_topology_count_and_tags_witness :
    viommu_parse_topology spec_layout mem_ok dev_A (table_window 1 16 range_8_15) empty_state =
      (0, { viommus := [viommu_new_spec spec_layout dev_A (table_window 1 16 range_8_15)],
            pci_acs_enable := false }) :=
  ((viommu_parse_topology_count_and_tags spec_layout mem_ok dev_A (table_window 1 16 range_8_15)
    empty_state (by decide) (by decide) (by decide) (by decide) (by decide)).1 rfl).1

/-- C5 fails as stated, in two ways.  With a valid header (offset 52, one item
of 16 bytes) and a failing allocation the parse returns `-ENOMEM` and
registers nothing.  With the header `{offset = 0xFFFFFFFC, num_items = 2,
item_length = 4}` the `u32` offset wraps: record 1 is read at offset 0 (tag 0)
while the bytes at `offset + 1 * item_length = 2 ^ 32` carry tag 1. -/
theorem parse_count_and_tags_counterexample :
    (ioread32 (table_window 1 16 range_8_15) spec_layout.topo_offset ≠ 0 ∧
     ioread32 (table_window 1 16 range_8_15) spec_layout.topo_num_items ≠ 0 ∧
     ioread32 (table_window 1 16 range_8_15) spec_layout.topo_item_length ≠ 0 ∧
     ioread32 (table_window 1 16 range_8_15) spec_layout.topo_item_length % 4 = 0 ∧
     viommu_parse_topology spec_layout mem_fail dev_A (table_window 1 16 range_8_15) empty_state =
       (-ENOMEM, empty_state)) ∧
    (ioread32 wrap_window spec_layout.topo_offset = 4294967292 ∧
     ioread32 wrap_window spec_layout.topo_num_items = 2 ∧
     ioread32 wrap_window spec_layout.topo_item_length = 4 ∧
     (viommu_parse_topology spec_layout mem_ok dev_A wrap_window empty_state).2.viommus =
       [viommu_new_spec spec_layout dev_A wrap_window] ∧
     le16_to_cpu ((viommu_new_spec spec_layout dev_A wrap_window).cfg.getD 1 []) 0 = 0 ∧
     wrap_window (4294967292 + 1 * 4) % 256 + 256 * (wrap_window (4294967292 + 1 * 4 + 1) % 256)
       = 1) := by
  refine ⟨⟨by decide, by decide, by decide, by decide, by decide⟩,
    ⟨by decide, by decide, by decide, by decide, by decide, by decide⟩⟩

/-! ## C6: an item length that is not a multiple of 4 -/

/-- What the code does with every header that has non-zero offset and
num_items and `item_length % 4 != 0`, when the allocation succeeds: it returns
0 and registers a descriptor with num_items records.  When item_length is
smaller than the record size, `viommu_ccopy` copies nothing and every record
stays all-zero; when it is larger, the copy width is the record size and the
kind tag of every record is the first two bytes of its item. -/
theorem viommu_parse_topology_unaligned_stride (L : topo_layout) (mem : mem_env) (dev : device)
    (w : Window) (s : kstate) (hL : L.wf)
    (ho : ioread32 w L.topo_offset ≠ 0) (hn : ioread32 w L.topo_num_items ≠ 0)
    (h4 : ioread32 w L.topo_item_length % 4 ≠ 0) (hm : mem.kzalloc_ok = true) :
    viommu_parse_topology L mem dev w s =
      (0, { s with viommus := viommu_new_spec L dev w :: s.viommus }) ∧
    (viommu_new_spec L dev w).num_items = ioread32 w L.topo_num_items ∧
    (viommu_new_spec L dev w).cfg.length = ioread32 w L.topo_num_items ∧
    (ioread32 w L.topo_item_length < L.cfg_size →
      (viommu_new_spec L dev w).cfg =
        List.replicate (ioread32 w L.topo_num_items) (zero_cfg L)) ∧
    (L.cfg_size < ioread32 w L.topo_item_length →
      ∀ i, i < ioread32 w L.topo_num_items →
        le16_to_cpu ((viommu_new_spec L dev w).cfg.getD i []) 0 =
          w ((ioread32 w L.topo_offset + i * ioread32 w L.topo_item_length) % 2 ^ 32) % 256 +
          256 * (w ((ioread32 w L.topo_offset + i * ioread32 w L.topo_item_length) % 2 ^ 32 + 1)
            % 256)) := by
  obtain ⟨hpos, hsz4, -⟩ := hL
  have hl : ioread32 w L.topo_item_length ≠ 0 := by
    intro h; rw [h] at h4; exact h4 rfl
  refine ⟨viommu_parse_topology_registers L mem dev w s ho hn hl hm, rfl,
    viommu_copy_items_length L w _ _ _, ?_, ?_⟩
  · intro hlt
    show viommu_copy_items L w _ _ _ = _
    apply viommu_copy_items_unaligned
    rw [Nat.min_eq_left (Nat.le_of_lt hlt)]
    exact h4
  · intro hgt i hi
    show le16_to_cpu ((viommu_copy_items L w _ _ _).getD i []) 0 = _
    rw [viommu_copy_items_getD L w _ _ _ i (ioread32_lt w _) hi]
    apply viommu_ccopy_tag
    · rw [Nat.min_eq_right (Nat.le_of_lt hgt)]; exact hsz4
    · exact Nat.lt_min.mpr ⟨Nat.pos_of_ne_zero hl, hpos⟩
    · omega

/-- C6: at the header `{offset = 52, num_items = 1, item_length = 6}`, whose
item_length is not a multiple of 4, `viommu_ccopy` is called with length 6,
takes its `WARN_ON(length % 4)` branch, reads no register and copies nothing.
`viommu_parse_topology` nevertheless returns 0 and adds a descriptor with one
all-zero record to the registry, which was empty before, where a
malformed-table error and an unchanged registry are required. -/
theorem viommu_parse_topology_unaligned_item_length :
    ioread32 (table_window 1 6 range_8_15) spec_layout.topo_offset = 52 ∧
    ioread32 (table_window 1 6 range_8_15) spec_layout.topo_num_items = 1 ∧
    ioread32 (table_window 1 6 range_8_15) spec_layout.topo_item_length = 6 ∧
    viommu_read_length spec_layout (table_window 1 6 range_8_15) % 4 ≠ 0 ∧
    viommu_ccopy (table_window 1 6 range_8_15) (zero_cfg spec_layout) 52
        (viommu_read_length spec_layout (table_window 1 6 range_8_15)) =
      zero_cfg spec_layout ∧
    viommu_parse_topology_reads spec_layout mem_ok (table_window 1 6 range_8_15) = [[]] ∧
    (viommu_parse_topology spec_layout mem_ok dev_A (table_window 1 6 range_8_15) empty_state).1
      = 0 ∧
    (viommu_parse_topology spec_layout mem_ok dev_A (table_window 1 6 range_8_15)
      empty_state).2.viommus =
      [{ dev := 7, fwnode := none, ops := none, num_items := 1,
         cfg := [[0, 0, 0, 0, 0, 0, 0, 0, 0, 0, 0, 0, 0, 0, 0, 0]] }] ∧
    (viommu_parse_topology spec_layout mem_ok dev_A (table_window 1 6 range_8_15) empty_state).2
      ≠ empty_state := by
  refine ⟨by decide, by decide, by decide, by decide, by decide, by decide, by decide,
    by decide, by decide⟩

/-! ## Lemmas on the translation context -/

theorem virt_iommu_setup_translated (L : topo_layout) (mem : mem_env) (s : kstate)
    (dev : device) (h : (dev.fwspec.bind fun f => f.ops).isSome = true) :
    virt_iommu_setup L mem s dev = (ops_ptr.null, dev, s) := by
  unfold virt_iommu_setup
  simp [h]

theorem iommu_fwspec_init_bound (mem : mem_env) (dev : device) (fw : Option Nat) (R : Nat)
    (h : (iommu_fwspec_init mem dev fw R).1 = 0) :
    ∃ f, (iommu_fwspec_init mem dev fw R).2.fwspec = some f ∧ f.ops = some R := by
  unfold iommu_fwspec_init at h ⊢
  cases hf : dev.fwspec with
  | none =>
    cases hk : mem.kzalloc_ok with
    | true => simp
    | false => simp [hf, hk, ENOMEM] at h
  | some f =>
    by_cases ho : f.ops = some R
    · exact ⟨f, by simp [hf], ho⟩
    · simp [hf, ho, EINVAL] at h

theorem iommu_fwspec_add_ids_ops (mem : mem_env) (dev : device) (ids : List Nat)
    (f : iommu_fwspec) (hf : dev.fwspec = some f) :
    ∃ g, (iommu_fwspec_add_ids mem dev ids).2.fwspec = some g ∧ g.ops = f.ops := by
  unfold iommu_fwspec_add_ids
  simp only [hf]
  split
  · exact ⟨f, hf, rfl⟩
  · exact ⟨_, rfl, rfl⟩

theorem iommu_fwspec_init_errno (mem : mem_env) (dev : device) (fw : Option Nat) (R : Nat) :
    (iommu_fwspec_init mem dev fw R).1 = 0 ∨ (iommu_fwspec_init mem dev fw R).1 = -EINVAL ∨
      (iommu_fwspec_init mem dev fw R).1 = -ENOMEM := by
  unfold iommu_fwspec_init
  cases dev.fwspec with
  | none =>
    cases mem.kzalloc_ok <;> simp
  | some f =>
    by_cases ho : f.ops = some R <;> simp [ho]

theorem virt_iommu_setup_platform (L : topo_layout) (mem : mem_env) (s : kstate)
    (dev : device) (hpci : dev.pci = none) :
    virt_iommu_setup L mem s dev = (ops_ptr.null, dev, s) := by
  unfold virt_iommu_setup
  simp only [hpci]
  split <;> rfl

theorem virt_iommu_setup_no_match (L : topo_layout) (mem : mem_env) (s : kstate)
    (dev : device) (pdev : pci_dev) (hpci : dev.pci = some pdev)
    (hscan : viommu_scan L pdev s.viommus = none) :
    virt_iommu_setup L mem s dev = (ops_ptr.null, dev, s) := by
  unfold virt_iommu_setup
  simp only [hpci, hscan]
  split <;> rfl

theorem virt_iommu_setup_bound (L : topo_layout) (mem : mem_env) (s : kstate) (dev : device)
    (pdev : pci_dev) (m : viommu_found) (R : Nat)
    (hnt : (dev.fwspec.bind fun f => f.ops).isSome = false) (hpci : dev.pci = some pdev)
    (hscan : viommu_scan L pdev s.viommus = some m) (hne : m.viommu_dev ≠ dev.addr)
    (hops : m.viommu_ops = some R) :
    virt_iommu_setup L mem s dev =
      if (iommu_fwspec_init mem dev m.viommu_fwnode R).1 ≠ 0 then
        (ops_ptr.err (iommu_fwspec_init mem dev m.viommu_fwnode R).1,
         (iommu_fwspec_init mem dev m.viommu_fwnode R).2, pci_request_acs s)
      else
        (ops_ptr.ops R,
         (iommu_fwspec_add_ids mem (iommu_fwspec_init mem dev m.viommu_fwnode R).2 [m.epid]).2,
         pci_request_acs s) := by
  unfold virt_iommu_setup
  simp [hnt, hpci, hscan, hne, hops]

/-- The six ways through `virt_iommu_setup`. -/
theorem virt_iommu_setup_cases (L : topo_layout) (mem : mem_env) (s : kstate) (dev : device) :
    (((dev.fwspec.bind fun f => f.ops).isSome = true ∨ dev.pci = none ∨
        (∃ pdev, dev.pci = some pdev ∧ viommu_scan L pdev s.viommus = none) ∨
        (∃ pdev m, dev.pci = some pdev ∧ viommu_scan L pdev s.viommus = some m ∧
          m.viommu_dev = dev.addr)) ∧
      virt_iommu_setup L mem s dev = (ops_ptr.null, dev, s)) ∨
    (∃ pdev m, (dev.fwspec.bind fun f => f.ops).isSome = false ∧ dev.pci = some pdev ∧
      viommu_scan L pdev s.viommus = some m ∧ m.viommu_dev ≠ dev.addr ∧
      m.viommu_ops = none ∧
      virt_iommu_setup L mem s dev = (ops_ptr.err (-EPROBE_DEFER), dev, pci_request_acs s)) ∨
    (∃ pdev m R, (dev.fwspec.bind fun f => f.ops).isSome = false ∧ dev.pci = some pdev ∧
      viommu_scan L pdev s.viommus = some m ∧ m.viommu_dev ≠ dev.addr ∧
      m.viommu_ops = some R ∧
      virt_iommu_setup L mem s dev =
        if (iommu_fwspec_init mem dev m.viommu_fwnode R).1 ≠ 0 then
          (ops_ptr.err (iommu_fwspec_init mem dev m.viommu_fwnode R).1,
           (iommu_fwspec_init mem dev m.viommu_fwnode R).2, pci_request_acs s)
        else
          (ops_ptr.ops R,
           (iommu_fwspec_add_ids mem (iommu_fwspec_init mem dev m.viommu_fwnode R).2
             [m.epid]).2,
           pci_request_acs s)) := by
  cases hb : (dev.fwspec.bind fun f => f.ops).isSome with
  | true => exact Or.inl ⟨Or.inl rfl, virt_iommu_setup_translated L mem s dev hb⟩
  | false =>
    cases hpci : dev.pci with
    | none => exact Or.inl ⟨Or.inr (Or.inl rfl), virt_iommu_setup_platform L mem s dev hpci⟩
    | some pdev =>
      cases hscan : viommu_scan L pdev s.viommus with
      | none =>
        exact Or.inl ⟨Or.inr (Or.inr (Or.inl ⟨pdev, rfl, hscan⟩)),
          virt_iommu_setup_no_match L mem s dev pdev hpci hscan⟩
      | some m =>
        by_cases hself : m.viommu_dev = dev.addr
        · exact Or.inl ⟨Or.inr (Or.inr (Or.inr ⟨pdev, m, rfl, hscan, hself⟩)),
            virt_iommu_setup_self L mem s dev pdev m hpci hscan hself⟩
        · cases hops : m.viommu_ops with
          | none =>
            exact Or.inr (Or.inl ⟨pdev, m, rfl, rfl, hscan, hself, hops,
              virt_iommu_setup_deferred L mem s dev pdev m hb hpci hscan hself hops⟩)
          | some R =>
            exact Or.inr (Or.inr ⟨pdev, m, R, rfl, rfl, hscan, hself, hops,
              virt_iommu_setup_bound L mem s dev pdev m R hb hpci hscan hself hops⟩)

theorem virt_iommu_setup_ops_bound (L : topo_layout) (mem : mem_env) (s : kstate)
    (dev : device) (R : Nat) (h : (virt_iommu_setup L mem s dev).1 = ops_ptr.ops R) :
    ((virt_iommu_setup L mem s dev).2.1.fwspec.bind fun f => f.ops).isSome = true := by
  rcases virt_iommu_setup_cases L mem s dev with ⟨-, e⟩ | ⟨pdev, m, -, -, -, -, -, e⟩ |
    ⟨pdev, m, R', -, -, -, -, -, e⟩
  · rw [e] at h; cases h
  · rw [e] at h; cases h
  · rw [e] at h ⊢
    by_cases hret : (iommu_fwspec_init mem dev m.viommu_fwnode R').1 = 0
    · obtain ⟨f, hf, hfo⟩ := iommu_fwspec_init_bound mem dev m.viommu_fwnode R' hret
      obtain ⟨g, hg, hgo⟩ := iommu_fwspec_add_ids_ops mem _ [m.epid] f hf
      simp [hret, hg, hgo, hfo]
    · simp [hret] at h


theorem virt_dma_configure_value (L : topo_layout) (mem : mem_env) (s : kstate)
    (dev : device) :
    (virt_dma_configure L mem s dev).1 =
      if (virt_iommu_setup L mem s dev).1 = ops_ptr.err (-EPROBE_DEFER) then -EPROBE_DEFER
      else 0 := by
  cases h : (virt_iommu_setup L mem s dev).1 with
  | null => simp [virt_dma_configure, h, IS_ERR_OR_NULL, PTR_ERR]
  | ops p => simp [virt_dma_configure, h, IS_ERR_OR_NULL]
  | err e =>
    by_cases he : e = -EPROBE_DEFER
    · simp [virt_dma_configure, h, IS_ERR_OR_NULL, PTR_ERR, he]
    · by_cases h0 : e = 0
      · simp [virt_dma_configure, h, IS_ERR_OR_NULL, PTR_ERR, h0, EPROBE_DEFER]
      · simp [virt_dma_configure, h, IS_ERR_OR_NULL, PTR_ERR, he, h0]

theorem virt_iommu_setup_deferred_iff (L : topo_layout) (mem : mem_env) (s : kstate)
    (dev : device) :
    (virt_iommu_setup L mem s dev).1 = ops_ptr.err (-EPROBE_DEFER) ↔
      ((dev.fwspec.bind fun f => f.ops).isSome = false ∧
        ∃ pdev m, dev.pci = some pdev ∧ viommu_scan L pdev s.viommus = some m ∧
          m.viommu_dev ≠ dev.addr ∧ m.viommu_ops = none) := by
  rcases virt_iommu_setup_cases L mem s dev with ⟨hc, e⟩ | ⟨pdev, m, hb, hpci, hscan, hne, hops, e⟩ |
    ⟨pdev, m, R, hb, hpci, hscan, hne, hops, e⟩
  · rw [e]
    constructor
    · intro h; cases h
    · rintro ⟨hb, pdev, m, hpci, hscan, hne, hops⟩
      rcases hc with h | h | ⟨p, hp, hs⟩ | ⟨p, m', hp, hs, hself⟩
      · rw [hb] at h; cases h
      · rw [hpci] at h; cases h
      · rw [hpci] at hp; cases hp; rw [hscan] at hs; cases hs
      · rw [hpci] at hp; cases hp; rw [hscan] at hs; cases hs; exact absurd hself hne
  · rw [e]
    exact ⟨fun _ => ⟨hb, pdev, m, hpci, hscan, hne, hops⟩, fun _ => rfl⟩
  · rw [e]
    constructor
    · intro h
      exfalso
      rcases iommu_fwspec_init_errno mem dev m.viommu_fwnode R with h0 | h0 | h0
      · simp [h0] at h
      · simp [h0, EINVAL, EPROBE_DEFER] at h
      · simp [h0, ENOMEM, EPROBE_DEFER] at h
    · rintro ⟨-, pdev', m', hpci', hscan', -, hops'⟩
      rw [hpci] at hpci'; cases hpci'
      rw [hscan] at hscan'; cases hscan'
      rw [hops] at hops'; cases hops'

/-! ## C7: self-exclusion -/

/-- C7: if the first descriptor that matches a PCI device has that same
device as its transport device, `virt_iommu_setup` returns NULL and leaves the
device (its fwspec included) and the global state unchanged. -/
theorem virt_iommu_setup_self_excluded (L : topo_layout) (mem : mem_env) (s : kstate)
    (dev : device) (pdev : pci_dev) (m : viommu_found) (hpci : dev.pci = some pdev)
    (hscan : viommu_scan L pdev s.viommus = some m) (hself : m.viommu_dev = dev.addr) :
    (virt_iommu_setup L mem s dev).1 = ops_ptr.null ∧
    (virt_iommu_setup L mem s dev).2.1 = dev ∧
    (virt_iommu_setup L mem s dev).2.1.fwspec = dev.fwspec ∧
    (virt_iommu_setup L mem s dev).2.2 = s := by
  rw [virt_iommu_setup_self L mem s dev pdev m hpci hscan hself]
  exact ⟨rfl, rfl, rfl, rfl⟩

/-- C7 at transport device A, bound to ops 700, sitting at requester 0x000A
inside the range `[0x0008, 0x000F]` of its own descriptor. -/
theorem virt_iommu_setup_self_excluded_witness :
    (virt_iommu_setup spec_layout mem_ok state_A_bound dev_A_pci).1 = ops_ptr.null ∧
    (virt_iommu_setup spec_layout mem_ok state_A_bound dev_A_pci).2.1 = dev_A_pci ∧
    (virt_iommu_setup spec_layout mem_ok state_A_bound dev_A_pci).2.1.fwspec = dev_A_pci.fwspec ∧
    (virt_iommu_setup spec_layout mem_ok state_A_bound dev_A_pci).2.2 = state_A_bound :=
  virt_iommu_setup_self_excluded spec_layout mem_ok state_A_bound dev_A_pci ⟨0, 10⟩
    { viommu_ops := some 700, viommu_fwnode := some 70, viommu_dev := 7, epid := 102 }
    rfl (by decide) rfl

/-! ## C8: a resolved device is not resolved again -/

/-- C8: if `virt_iommu_setup` returns a valid ops pointer, the device it
leaves has a fwspec with bound ops, and a following call on that device, in
the state left by the first call or in any other, returns NULL and changes
neither the device (binding and endpoint-id list included) nor the state. -/
theorem virt_iommu_setup_twice (L : topo_layout) (mem mem2 : mem_env) (s s2 : kstate)
    (dev : device) (R : Nat) (h : (virt_iommu_setup L mem s dev).1 = ops_ptr.ops R) :
    ((virt_iommu_setup L mem s dev).2.1.fwspec.bind fun f => f.ops).isSome = true ∧
    virt_iommu_setup L mem2 (virt_iommu_setup L mem s dev).2.2 (virt_iommu_setup L mem s dev).2.1 =
      (ops_ptr.null, (virt_iommu_setup L mem s dev).2.1, (virt_iommu_setup L mem s dev).2.2) ∧
    virt_iommu_setup L mem2 s2 (virt_iommu_setup L mem s dev).2.1 =
      (ops_ptr.null, (virt_iommu_setup L mem s dev).2.1, s2) :=
  ⟨virt_iommu_setup_ops_bound L mem s dev R h,
   virt_iommu_setup_translated L mem2 _ _ (virt_iommu_setup_ops_bound L mem s dev R h),
   virt_iommu_setup_translated L mem2 s2 _ (virt_iommu_setup_ops_bound L mem s dev R h)⟩

/-- C8 at requester 0x000A resolved against A (ops 700, endpoint id 102): the
second call returns NULL and keeps the fwspec `{700, [102]}`. -/
theorem virt_iommu_setup_twice_witness :
    (virt_iommu_setup spec_layout mem_ok state_A_bound dev_D).1 = ops_ptr.ops 700 ∧
    (virt_iommu_setup spec_layout mem_ok
        (virt_iommu_setup spec_layout mem_ok state_A_bound dev_D).2.2
        (virt_iommu_setup spec_layout mem_ok state_A_bound dev_D).2.1) =
      (ops_ptr.null,
       { dev_D with fwspec := some { ops := some 700, iommu_fwnode := some 70, ids := [102] } },
       pci_request_acs state_A_bound) :=
  ⟨by decide,
   (virt_iommu_setup_twice spec_layout mem_ok mem_ok state_A_bound empty_state dev_D 700
      (by decide)).2.1⟩

/-! ## C9: the return value of `virt_dma_configure` -/

/-- C9 (amended): `virt_dma_configure` returns only 0 or `-EPROBE_DEFER`.  It
returns `-EPROBE_DEFER` exactly when the device is a not-yet-translated PCI
device whose first matching record belongs to a descriptor that has another
device as transport device and an unbound resolver.  It returns 0 when
`virt_iommu_setup` returns NULL and when it returns any other error. -/
theorem virt_dma_configure_ret (L : topo_layout) (mem : mem_env) (s : kstate) (dev : device) :
    ((virt_dma_configure L mem s dev).1 = 0 ∨
      (virt_dma_configure L mem s dev).1 = -EPROBE_DEFER) ∧
    ((virt_dma_configure L mem s dev).1 = -EPROBE_DEFER ↔
      ((dev.fwspec.bind fun f => f.ops).isSome = false ∧
        ∃ pdev m, dev.pci = some pdev ∧ viommu_scan L pdev s.viommus = some m ∧
          m.viommu_dev ≠ dev.addr ∧ m.viommu_ops = none)) ∧
    ((virt_iommu_setup L mem s dev).1 = ops_ptr.null → (virt_dma_configure L mem s dev).1 = 0) ∧
    (∀ e, (virt_iommu_setup L mem s dev).1 = ops_ptr.err e → e ≠ -EPROBE_DEFER →
      (virt_dma_configure L mem s dev).1 = 0) := by
  have hret := virt_dma_configure_value L mem s dev
  refine ⟨?_, ?_, ?_, ?_⟩
  · rw [hret]; split
    · exact Or.inr rfl
    · exact Or.inl rfl
  · rw [← virt_iommu_setup_deferred_iff L mem s dev, hret]
    constructor
    · intro h
      by_contra hne
      rw [if_neg hne] at h
      simp [EPROBE_DEFER] at h
    · intro h; rw [if_pos h]
  · intro h
    rw [hret, h]; simp
  · intro e h he
    rw [hret, h]
    have : ¬ (ops_ptr.err e = ops_ptr.err (-EPROBE_DEFER)) := by
      intro h'; cases h'; exact he rfl
    rw [if_neg this]

/-- C9 at the range `[0x0008, 0x000F]` of A: with A unbound, requester 0x000A
gets `-EPROBE_DEFER`; with A bound and an endpoint whose fwspec carries other
ops, `iommu_fwspec_init` fails with `-EINVAL` and the result is 0. -/
theorem virt_dma_configure_ret_witness :
    (virt_dma_configure spec_layout mem_ok state_A dev_D).1 = -EPROBE_DEFER ∧
    (virt_dma_configure spec_layout mem_ok state_A_bound dev_D_stale).1 = 0 :=
  ⟨(virt_dma_configure_ret spec_layout mem_ok state_A dev_D).2.1.2
      ⟨by decide, ⟨0, 10⟩,
        { viommu_ops := none, viommu_fwnode := none, viommu_dev := 7, epid := 102 },
        rfl, by decide, by decide, rfl⟩,
   (virt_dma_configure_ret spec_layout mem_ok state_A_bound dev_D_stale).2.2.2 (-EINVAL)
      (by decide) (by decide)⟩

/-- C9 fails as stated.  Transport device A sits inside the range of its own
descriptor, whose resolver is unbound: the device is matched to a translation
unit whose resolver is not bound and `virt_dma_configure` returns 0.  An
already translated endpoint at requester 0x000A is matched to the same unbound
descriptor and `virt_dma_configure` returns 0 as well. -/
theorem dma_configure_defer_exactly_counterexample :
    viommu_scan spec_layout ⟨0, 10⟩ state_A.viommus =
      some { viommu_ops := none, viommu_fwnode := none, viommu_dev := 7, epid := 102 } ∧
    dev_A_pci.pci = some ⟨0, 10⟩ ∧
    (virt_dma_configure spec_layout mem_ok state_A dev_A_pci).1 = 0 ∧
    dev_D_translated.pci = some ⟨0, 10⟩ ∧
    (virt_dma_configure spec_layout mem_ok state_A dev_D_translated).1 = 0 ∧
    (virt_dma_configure spec_layout mem_ok state_A dev_A_pci).1 ≠ -EPROBE_DEFER ∧
    (virt_dma_configure spec_layout mem_ok state_A dev_D_translated).1 ≠ -EPROBE_DEFER := by
  refine ⟨by decide, by decide, by decide, by decide, by decide, by decide, by decide⟩

/-! ## C10: descriptors per transport device -/

theorem virt_set_iommu_ops_list_devs (dev : device) (ops : Option Nat) (l : List viommu_spec) :
    (virt_set_iommu_ops_list dev ops l).map (fun d => d.dev) = l.map (fun d => d.dev) := by
  induction l with
  | nil => rfl
  | cons d l ih =>
    unfold virt_set_iommu_ops_list
    split
    · rfl
    · simp [ih]

/-- C10 (amended): `viommu_parse_topology` does not look for an existing
descriptor of the transport device: every parse of a table with a non-zero
header whose allocation succeeds adds one descriptor of that device at the
head of the registry, so two parses for the same transport device leave two
more descriptors of it.  `virt_set_iommu_ops` neither adds nor removes a
descriptor and keeps the transport device of each. -/
theorem viommu_parse_topology_adds_descriptor (L : topo_layout) (mem1 mem2 : mem_env)
    (dev : device) (w1 w2 : Window) (s : kstate) (dev2 : device) (ops : Option Nat)
    (ho1 : ioread32 w1 L.topo_offset ≠ 0) (hn1 : ioread32 w1 L.topo_num_items ≠ 0)
    (hl1 : ioread32 w1 L.topo_item_length ≠ 0) (hm1 : mem1.kzalloc_ok = true)
    (ho2 : ioread32 w2 L.topo_offset ≠ 0) (hn2 : ioread32 w2 L.topo_num_items ≠ 0)
    (hl2 : ioread32 w2 L.topo_item_length ≠ 0) (hm2 : mem2.kzalloc_ok = true) :
    (viommu_parse_topology L mem1 dev w1 s).2.viommus.map (fun d => d.dev) =
      dev.addr :: s.viommus.map (fun d => d.dev) ∧
    ((viommu_parse_topology L mem2 dev w2 (viommu_parse_topology L mem1 dev w1 s).2).2.viommus.map
        (fun d => d.dev)).count dev.addr =
      (s.viommus.map (fun d => d.dev)).count dev.addr + 2 ∧
    (virt_set_iommu_ops dev2 ops s).viommus.map (fun d => d.dev) =
      s.viommus.map (fun d => d.dev) := by
  rw [viommu_parse_topology_registers L mem2 dev w2 _ ho2 hn2 hl2 hm2,
    viommu_parse_topology_registers L mem1 dev w1 s ho1 hn1 hl1 hm1]
  refine ⟨rfl, ?_, virt_set_iommu_ops_list_devs dev2 ops s.viommus⟩
  have hd1 : (viommu_new_spec L dev w1).dev = dev.addr := rfl
  have hd2 : (viommu_new_spec L dev w2).dev = dev.addr := rfl
  simp [hd1, hd2]

/-- C10 at the table of A parsed twice from the empty registry: two
descriptors of A. -/
theorem viommu_parse_topology_adds_descriptor_witness :
    ((viommu_parse_topology spec_layout mem_ok dev_A (table_window 1 16 range_8_15)
        (viommu_parse_topology spec_layout mem_ok dev_A (table_window 1 16 range_8_15)
          empty_state).2).2.viommus.map (fun d => d.dev)).count dev_A.addr =
      (empty_state.viommus.map (fun d => d.dev)).count dev_A.addr + 2 :=
  (viommu_parse_topology_adds_descriptor spec_layout mem_ok mem_ok dev_A
    (table_window 1 16 range_8_15) (table_window 1 16 range_8_15) empty_state dev_A none
    (by decide) (by decide) (by decide) rfl (by decide) (by decide) (by decide) rfl).2.1

/-- C10 fails as stated: parsing the same topology table twice for transport
device A, from the empty registry, leaves two descriptors of A. -/
theorem one_descriptor_per_device_counterexample :
    state_A_same_twice.viommus =
      [{ dev := 7, fwnode := none, ops := none, num_items := 1, cfg := [range_8_15] },
       { dev := 7, fwnode := none, ops := none, num_items := 1, cfg := [range_8_15] }] ∧
    (state_A_same_twice.viommus.filter (fun d => d.dev = dev_A.addr)).length = 2 := by
  refine ⟨by decide, by decide⟩


/-! ## C11: resolver and identity handle of a descriptor -/

theorem virt_set_iommu_ops_list_mem (dev : device) (ops : Option Nat) (l : List viommu_spec)
    (d : viommu_spec) (hd : d ∈ virt_set_iommu_ops_list dev ops l) :
    d ∈ l ∨ ∃ S, S ∈ l ∧ S.dev = dev.addr ∧
      d = { S with ops := ops, fwnode := if ops.isSome then dev.fwnode else none } := by
  induction l with
  | nil => simp [virt_set_iommu_ops_list] at hd
  | cons x l ih =>
    unfold virt_set_iommu_ops_list at hd
    split at hd
    · rename_i hx
      rcases List.mem_cons.mp hd with h | h
      · exact Or.inr ⟨x, List.mem_cons_self _ _, hx, h⟩
      · exact Or.inl (List.mem_cons_of_mem _ h)
    · rcases List.mem_cons.mp hd with h | h
      · exact Or.inl (h ▸ List.mem_cons_self _ _)
      · rcases ih h with h' | ⟨S, hS, hSd, e⟩
        · exact Or.inl (List.mem_cons_of_mem _ h')
        · exact Or.inr ⟨S, List.mem_cons_of_mem _ hS, hSd, e⟩

/-- The three ways through `viommu_parse_topology`. -/
theorem viommu_parse_topology_cases (L : topo_layout) (mem : mem_env) (dev : device)
    (w : Window) (s : kstate) :
    ((ioread32 w L.topo_offset = 0 ∨ ioread32 w L.topo_num_items = 0 ∨
        ioread32 w L.topo_item_length = 0) ∧
      viommu_parse_topology L mem dev w s = (0, s)) ∨
    (mem.kzalloc_ok = false ∧ viommu_parse_topology L mem dev w s = (-ENOMEM, s)) ∨
    (ioread32 w L.topo_offset ≠ 0 ∧ ioread32 w L.topo_num_items ≠ 0 ∧
      ioread32 w L.topo_item_length ≠ 0 ∧ mem.kzalloc_ok = true ∧
      viommu_parse_topology L mem dev w s =
        (0, { s with viommus := viommu_new_spec L dev w :: s.viommus })) := by
  by_cases hz : ioread32 w L.topo_offset = 0 ∨ ioread32 w L.topo_num_items = 0 ∨
      ioread32 w L.topo_item_length = 0
  · exact Or.inl ⟨hz, by simp [viommu_parse_topology, hz]⟩
  · have ho : ioread32 w L.topo_offset ≠ 0 := fun h => hz (Or.inl h)
    have hn : ioread32 w L.topo_num_items ≠ 0 := fun h => hz (Or.inr (Or.inl h))
    have hl : ioread32 w L.topo_item_length ≠ 0 := fun h => hz (Or.inr (Or.inr h))
    cases hm : mem.kzalloc_ok with
    | false => exact Or.inr (Or.inl ⟨rfl, by simp [viommu_parse_topology, ho, hn, hl, hm]⟩)
    | true =>
      exact Or.inr (Or.inr ⟨ho, hn, hl, rfl,
        viommu_parse_topology_registers L mem dev w s ho hn hl hm⟩)

theorem viommu_parse_topology_mem (L : topo_layout) (mem : mem_env) (dev : device) (w : Window)
    (s : kstate) (d : viommu_spec) (hd : d ∈ (viommu_parse_topology L mem dev w s).2.viommus) :
    d ∈ s.viommus ∨ d = viommu_new_spec L dev w := by
  rcases viommu_parse_topology_cases L mem dev w s with ⟨-, e⟩ | ⟨-, e⟩ | ⟨-, -, -, -, e⟩
  · rw [e] at hd; exact Or.inl hd
  · rw [e] at hd; exact Or.inl hd
  · rw [e] at hd
    rcases List.mem_cons.mp hd with h | h
    · exact Or.inr h
    · exact Or.inl h

theorem apply_op_fwnode_ops (L : topo_layout) (s : kstate) (o : registry_op)
    (h : ∀ d ∈ s.viommus, d.fwnode.isSome = true → d.ops.isSome = true) :
    ∀ d ∈ (apply_op L s o).viommus, d.fwnode.isSome = true → d.ops.isSome = true := by
  intro d hd hf
  cases o with
  | parse mem dev w =>
    rcases viommu_parse_topology_mem L mem dev w s d hd with h' | h'
    · exact h d h' hf
    · rw [h'] at hf; simp [viommu_new_spec] at hf
  | set_ops dev ops =>
    rcases virt_set_iommu_ops_list_mem dev ops s.viommus d hd with h' | ⟨S, -, -, e⟩
    · exact h d h' hf
    · rw [e] at hf ⊢
      cases ops with
      | none => simp at hf
      | some R => rfl

theorem apply_op_ops_iff_fwnode (L : topo_layout) (s : kstate) (o : registry_op)
    (ho : op_has_fwnode o)
    (h : ∀ d ∈ s.viommus, d.ops.isSome = d.fwnode.isSome) :
    ∀ d ∈ (apply_op L s o).viommus, d.ops.isSome = d.fwnode.isSome := by
  intro d hd
  cases o with
  | parse mem dev w =>
    rcases viommu_parse_topology_mem L mem dev w s d hd with h' | h'
    · exact h d h'
    · rw [h']; rfl
  | set_ops dev ops =>
    rcases virt_set_iommu_ops_list_mem dev ops s.viommus d hd with h' | ⟨S, -, -, e⟩
    · exact h d h'
    · rw [e]
      cases ops with
      | none => rfl
      | some R =>
        have := ho rfl
        simp [this]

theorem run_ops_fwnode_ops (L : topo_layout) (ops : List registry_op) (s : kstate)
    (h : ∀ d ∈ s.viommus, d.fwnode.isSome = true → d.ops.isSome = true) :
    ∀ d ∈ (run_ops L ops s).viommus, d.fwnode.isSome = true → d.ops.isSome = true := by
  induction ops generalizing s with
  | nil => exact h
  | cons o ops ih => exact ih (apply_op L s o) (apply_op_fwnode_ops L s o h)

theorem run_ops_ops_iff_fwnode (L : topo_layout) (ops : List registry_op) (s : kstate)
    (ho : ∀ o ∈ ops, op_has_fwnode o)
    (h : ∀ d ∈ s.viommus, d.ops.isSome = d.fwnode.isSome) :
    ∀ d ∈ (run_ops L ops s).viommus, d.ops.isSome = d.fwnode.isSome := by
  induction ops generalizing s with
  | nil => exact h
  | cons o ops ih =>
    exact ih (apply_op L s o) (fun x hx => ho x (List.mem_cons_of_mem _ hx))
      (apply_op_ops_iff_fwnode L s o (ho o (List.mem_cons_self _ _)) h)

/-- C11 (amended): in every registry state reached from the empty registry by
`viommu_parse_topology` and `virt_set_iommu_ops` calls, a descriptor whose
fwnode is present has its ops present; ops and fwnode are present together
when every call that binds a resolver is made for a device that has a fwnode.
A freshly parsed descriptor has both absent; binding a resolver sets ops and
copies the device's fwnode, present or not; binding NULL clears both. -/
theorem viommu_spec_fwnode_implies_ops (L : topo_layout) (ops : List registry_op)
    (dev : device) (w : Window) (R : Nat) (s : kstate) (pre post : List viommu_spec)
    (S : viommu_spec)
    (hs : s.viommus = pre ++ S :: post) (hpre : ∀ d ∈ pre, d.dev ≠ dev.addr)
    (hS : S.dev = dev.addr) :
    (∀ d ∈ (run_ops L ops empty_state).viommus, d.fwnode.isSome = true → d.ops.isSome = true) ∧
    ((∀ o ∈ ops, op_has_fwnode o) →
      ∀ d ∈ (run_ops L ops empty_state).viommus, d.ops.isSome = d.fwnode.isSome) ∧
    ((viommu_new_spec L dev w).ops = none ∧ (viommu_new_spec L dev w).fwnode = none) ∧
    (virt_set_iommu_ops dev (some R) s).viommus =
      pre ++ { S with ops := some R, fwnode := dev.fwnode } :: post ∧
    (virt_set_iommu_ops dev none s).viommus =
      pre ++ { S with ops := none, fwnode := none } :: post := by
  refine ⟨run_ops_fwnode_ops L ops empty_state (by simp [empty_state]),
    fun ho => run_ops_ops_iff_fwnode L ops empty_state ho (by simp [empty_state]),
    ⟨rfl, rfl⟩, ?_, ?_⟩
  · simp only [virt_set_iommu_ops, hs]
    rw [virt_set_iommu_ops_list_append dev (some R) pre post S hpre hS]
    simp
  · simp only [virt_set_iommu_ops, hs]
    rw [virt_set_iommu_ops_list_append dev none pre post S hpre hS]
    simp

/-- C11 at transport device A (fwnode 70) after its table is parsed: binding
ops 700 sets ops 700 and fwnode 70, binding NULL clears both. -/
theorem viommu_spec_fwnode_implies_ops_witness :
    (virt_set_iommu_ops dev_A (some 700) state_A).viommus =
      [] ++ { viommu_new_spec spec_layout dev_A (table_window 1 16 range_8_15) with
              ops := some 700, fwnode := dev_A.fwnode } :: [] ∧
    (virt_set_iommu_ops dev_A none state_A).viommus =
      [] ++ { viommu_new_spec spec_layout dev_A (table_window 1 16 range_8_15) with
              ops := none, fwnode := none } :: [] :=
  (viommu_spec_fwnode_implies_ops spec_layout [] dev_A (table_window 1 16 range_8_15) 700
    state_A [] [] (viommu_new_spec spec_layout dev_A (table_window 1 16 range_8_15))
    (by decide) (by simp) rfl).2.2.2

/-- C11 fails as stated: transport device N has no fwnode (`dev->fwnode` is
NULL); after its table is parsed and its driver binds ops 700, both from the
empty registry, its descriptor has ops present and fwnode absent. -/
theorem resolver_identity_pairing_counterexample :
    (run_ops spec_layout
      [registry_op.parse mem_ok dev_N (table_window 1 16 range_8_15),
       registry_op.set_ops dev_N (some 700)] empty_state).viommus =
      [{ dev := 11, fwnode := none, ops := some 700, num_items := 1, cfg := [range_8_15] }] ∧
    ¬ (∀ d ∈ (run_ops spec_layout
        [registry_op.parse mem_ok dev_N (table_window 1 16 range_8_15),
         registry_op.set_ops dev_N (some 700)] empty_state).viommus,
        (d.ops.isSome = true ↔ d.fwnode.isSome = true)) := by
  have h : (run_ops spec_layout
      [registry_op.parse mem_ok dev_N (table_window 1 16 range_8_15),
       registry_op.set_ops dev_N (some 700)] empty_state).viommus =
      [{ dev := 11, fwnode := none, ops := some 700, num_items := 1, cfg := [range_8_15] }] := by
    decide
  refine ⟨h, ?_⟩
  rw [h]
  simp


/-! ## C12: the endpoint id of a match -/

theorem cfg_byte_lt (cfg : viommu_topo_cfg) (k : Nat) : cfg_byte cfg k < 256 := by
  unfold cfg_byte; omega

theorem le16_to_cpu_lt (cfg : viommu_topo_cfg) (off : Nat) : le16_to_cpu cfg off < 2 ^ 16 := by
  have h0 := cfg_byte_lt cfg off
  have h1 := cfg_byte_lt cfg (off + 1)
  unfold le16_to_cpu; omega

theorem le32_to_cpu_lt (cfg : viommu_topo_cfg) (off : Nat) : le32_to_cpu cfg off < 2 ^ 32 := by
  have h0 := cfg_byte_lt cfg off
  have h1 := cfg_byte_lt cfg (off + 1)
  have h2 := cfg_byte_lt cfg (off + 2)
  have h3 := cfg_byte_lt cfg (off + 3)
  unfold le32_to_cpu; omega

theorem viommu_parse_pci_some (L : topo_layout) (pdev : pci_dev) (cfg : viommu_topo_cfg)
    (e : Nat) (h : viommu_parse_pci L pdev cfg = some e) :
    le16_to_cpu cfg L.requester_start ≤ pci_dev_id pdev ∧
    pci_dev_id pdev ≤ le16_to_cpu cfg L.requester_end ∧
    e = (pci_dev_id pdev - le16_to_cpu cfg L.requester_start +
          le32_to_cpu cfg L.endpoint_start) % 2 ^ 32 := by
  simp only [viommu_parse_pci] at h
  split_ifs at h with h1 h2
  exact ⟨h2.2.1, h2.2.2, (Option.some.inj h).symm⟩

/-- C12 (amended): for every range record and every PCI device that matches
it, the endpoint id written by `viommu_parse_pci` is the `u32` value
`(devid - start + endpoint_start) mod 2 ^ 32`, with `start <= devid`; it
equals `devid - start + endpoint_start` whenever that sum is below `2 ^ 32`
(for start 0x0008, endpoint_start 100 and devid 0x000A the id is 102). -/
theorem viommu_parse_pci_epid (L : topo_layout) (pdev : pci_dev) (cfg : viommu_topo_cfg)
    (e : Nat) (h : viommu_parse_pci L pdev cfg = some e) :
    le16_to_cpu cfg L.requester_start ≤ pci_dev_id pdev ∧
    e = (pci_dev_id pdev - le16_to_cpu cfg L.requester_start +
          le32_to_cpu cfg L.endpoint_start) % 2 ^ 32 ∧
    (pci_dev_id pdev - le16_to_cpu cfg L.requester_start + le32_to_cpu cfg L.endpoint_start
        < 2 ^ 32 →
      e = pci_dev_id pdev - le16_to_cpu cfg L.requester_start +
          le32_to_cpu cfg L.endpoint_start) := by
  obtain ⟨h1, -, h3⟩ := viommu_parse_pci_some L pdev cfg e h
  refine ⟨h1, h3, fun hlt => ?_⟩
  rw [h3, Nat.mod_eq_of_lt hlt]

/-- C12 at the range `{start = 0x0008, endpointStart = 100}` and requester
0x000A: the id is `10 - 8 + 100 = 102`. -/
theorem viommu_parse_pci_epid_witness :
    (102 : Nat) = pci_dev_id ⟨0, 10⟩ - le16_to_cpu range_8_15 spec_layout.requester_start +
      le32_to_cpu range_8_15 spec_layout.endpoint_start :=
  (viommu_parse_pci_epid spec_layout ⟨0, 10⟩ range_8_15 102 (by decide)).2.2 (by decide)

/-- C12 fails as stated: the range record `{start = 0, end = 0xFFFF,
hierarchy = 0, endpointStart = 0xFFFFFFFF}` matches requester 0x0001 and the
id written is 0, while `devid - start + endpointStart` is `2 ^ 32`. -/
theorem endpoint_id_formula_counterexample :
    viommu_parse_pci spec_layout ⟨0, 1⟩ range_all_top = some 0 ∧
    pci_dev_id ⟨0, 1⟩ - le16_to_cpu range_all_top spec_layout.requester_start +
      le32_to_cpu range_all_top spec_layout.endpoint_start = 4294967296 := by
  refine ⟨by decide, by decide⟩

/-! ## C20: endpoint ids within one range record -/

/-- C20: two PCI devices with different requester ids that match the same
range record get different endpoint ids from `viommu_parse_pci`, also when
the `u32` sum wraps around. -/
theorem viommu_parse_pci_injective (L : topo_layout) (p1 p2 : pci_dev)
    (cfg : viommu_topo_cfg) (e1 e2 : Nat)
    (h1 : viommu_parse_pci L p1 cfg = some e1) (h2 : viommu_parse_pci L p2 cfg = some e2)
    (hne : pci_dev_id p1 ≠ pci_dev_id p2) : e1 ≠ e2 := by
  obtain ⟨a1, -, b1⟩ := viommu_parse_pci_some L p1 cfg e1 h1
  obtain ⟨a2, -, b2⟩ := viommu_parse_pci_some L p2 cfg e2 h2
  have hd1 : pci_dev_id p1 < 2 ^ 16 := by unfold pci_dev_id; omega
  have hd2 : pci_dev_id p2 < 2 ^ 16 := by unfold pci_dev_id; omega
  have hes := le32_to_cpu_lt cfg L.endpoint_start
  rw [b1, b2]
  omega

/-- C20 at the record `{start = 0, end = 0xFFFF, endpointStart = 0xFFFFFFFF}`:
requesters 0x0000 and 0x0001 get ids `0xFFFFFFFF` and 0 (after wrap-around),
which differ. -/
theorem viommu_parse_pci_injective_witness :
    viommu_parse_pci spec_layout ⟨0, 0⟩ range_all_top = some 4294967295 ∧
    viommu_parse_pci spec_layout ⟨0, 1⟩ range_all_top = some 0 ∧
    (4294967295 : Nat) ≠ 0 :=
  ⟨by decide, by decide,
   viommu_parse_pci_injective spec_layout ⟨0, 0⟩ ⟨0, 1⟩ range_all_top 4294967295 0
    (by decide) (by decide) (by decide)⟩


/-! ## C13: a header with a zero field -/

/-- C13: if any of offset, item_length or num_items read from the header is
zero, `viommu_parse_topology` returns 0, reads no table item and leaves the
state, the registry included, as it was. -/
theorem viommu_parse_topology_zero_header (L : topo_layout) (mem : mem_env) (dev : device)
    (w : Window) (s : kstate)
    (hz : ioread32 w L.topo_offset = 0 ∨ ioread32 w L.topo_item_length = 0 ∨
      ioread32 w L.topo_num_items = 0) :
    viommu_parse_topology L mem dev w s = (0, s) ∧
    (viommu_parse_topology L mem dev w s).2.viommus = s.viommus ∧
    viommu_parse_topology_reads L mem w = [] := by
  have hz' : ioread32 w L.topo_offset = 0 ∨ ioread32 w L.topo_num_items = 0 ∨
      ioread32 w L.topo_item_length = 0 := by
    rcases hz with h | h | h
    · exact Or.inl h
    · exact Or.inr (Or.inr h)
    · exact Or.inr (Or.inl h)
  have e : viommu_parse_topology L mem dev w s = (0, s) := by
    simp [viommu_parse_topology, hz']
  refine ⟨e, by rw [e], ?_⟩
  simp [viommu_parse_topology_reads, hz']

/-- C13 at the header `{offset = 52, num_items = 0, item_length = 16}` on the
registry that holds A's descriptor. -/
theorem viommu_parse_topology_zero_header_witness :
    viommu_parse_topology spec_layout mem_ok dev_B (table_window 0 16 range_0_255) state_A =
      (0, state_A) ∧
    (viommu_parse_topology spec_layout mem_ok dev_B (table_window 0 16 range_0_255)
      state_A).2.viommus = state_A.viommus ∧
    viommu_parse_topology_reads spec_layout mem_ok (table_window 0 16 range_0_255) = [] :=
  viommu_parse_topology_zero_header spec_layout mem_ok dev_B (table_window 0 16 range_0_255)
    state_A (Or.inr (Or.inr (by decide)))

/-! ## C14: what `virt_set_iommu_ops` writes -/

theorem virt_set_iommu_ops_list_unknown (dev : device) (ops : Option Nat)
    (l : List viommu_spec) (h : ∀ d ∈ l, d.dev ≠ dev.addr) :
    virt_set_iommu_ops_list dev ops l = l := by
  induction l with
  | nil => rfl
  | cons d l ih =>
    have hd : d.dev ≠ dev.addr := h d (List.mem_cons_self _ _)
    show (if d.dev = dev.addr then _ else d :: virt_set_iommu_ops_list dev ops l) = _
    rw [if_neg hd, ih (fun x hx => h x (List.mem_cons_of_mem _ hx))]

/-- C14: when no descriptor has the device as transport device,
`virt_set_iommu_ops` leaves the state unchanged, whatever the ops; when S is
the first descriptor of the device, only the ops and fwnode of S change: the
other descriptors, and the transport device, record count and records of S
stay. -/
theorem virt_set_iommu_ops_frame (dev : device) (ops : Option Nat) (s : kstate)
    (pre post : List viommu_spec) (S : viommu_spec) :
    ((∀ d ∈ s.viommus, d.dev ≠ dev.addr) → virt_set_iommu_ops dev ops s = s) ∧
    (s.viommus = pre ++ S :: post → (∀ d ∈ pre, d.dev ≠ dev.addr) → S.dev = dev.addr →
      virt_set_iommu_ops dev ops s =
        { viommus := pre ++ { dev := S.dev,
                              fwnode := if ops.isSome then dev.fwnode else none,
                              ops := ops, num_items := S.num_items, cfg := S.cfg } :: post,
          pci_acs_enable := s.pci_acs_enable }) := by
  constructor
  · intro h
    unfold virt_set_iommu_ops
    rw [virt_set_iommu_ops_list_unknown dev ops s.viommus h]
  · intro hs hpre hS
    unfold virt_set_iommu_ops
    rw [hs, virt_set_iommu_ops_list_append dev ops pre post S hpre hS]

/-- C14 on the registry `[B, A]`: binding for the unknown device N changes
nothing; binding NULL for A changes only the ops and fwnode of A's
descriptor. -/
theorem virt_set_iommu_ops_frame_witness :
    virt_set_iommu_ops dev_N (some 1100) state_A_then_B = state_A_then_B ∧
    virt_set_iommu_ops dev_A none state_A_then_B =
      { viommus :=
          [{ dev := 9, fwnode := some 90, ops := some 900, num_items := 1,
             cfg := [range_0_255] }] ++
          { dev := 7, fwnode := if (none : Option Nat).isSome then dev_A.fwnode else none,
            ops := none, num_items := 1, cfg := [range_8_15] } :: [],
        pci_acs_enable := state_A_then_B.pci_acs_enable } :=
  ⟨(virt_set_iommu_ops_frame dev_N (some 1100) state_A_then_B [] []
      { dev := 0, fwnode := none, ops := none, num_items := 0, cfg := [] }).1 (by decide),
   (virt_set_iommu_ops_frame dev_A none state_A_then_B
      [{ dev := 9, fwnode := some 90, ops := some 900, num_items := 1, cfg := [range_0_255] }]
      []
      { dev := 7, fwnode := some 70, ops := some 700, num_items := 1, cfg := [range_8_15] }).2
      (by decide) (by decide) rfl⟩

/-! ## C15: devices that are not described -/

theorem viommu_scan_items_none (L : topo_layout) (pdev : pci_dev) (l : List viommu_topo_cfg)
    (h : ∀ c ∈ l, viommu_parse_pci L pdev c = none) : viommu_scan_items L pdev l = none := by
  induction l with
  | nil => rfl
  | cons c l ih =>
    simp only [viommu_scan_items, h c (List.mem_cons_self _ _)]
    exact ih (fun x hx => h x (List.mem_cons_of_mem _ hx))

theorem viommu_scan_none (L : topo_layout) (pdev : pci_dev) (l : List viommu_spec)
    (h : ∀ d ∈ l, ∀ c ∈ d.cfg.take d.num_items, viommu_parse_pci L pdev c = none) :
    viommu_scan L pdev l = none := by
  have := viommu_scan_append_of_none L pdev l []
    (fun d hd => viommu_scan_items_none L pdev _ (h d hd))
  rw [List.append_nil] at this
  rw [this]; rfl

/-- C15: for a platform device, and for a PCI device that no record of any
registered descriptor matches, `virt_iommu_setup` returns NULL and leaves the
device, the registry and the ACS flag unchanged. -/
theorem virt_iommu_setup_not_described (L : topo_layout) (mem : mem_env) (s : kstate)
    (dev : device)
    (h : dev.pci = none ∨ ∃ pdev, dev.pci = some pdev ∧
      ∀ d ∈ s.viommus, ∀ c ∈ d.cfg.take d.num_items, viommu_parse_pci L pdev c = none) :
    virt_iommu_setup L mem s dev = (ops_ptr.null, dev, s) ∧
    (virt_iommu_setup L mem s dev).2.2.pci_acs_enable = s.pci_acs_enable ∧
    (virt_iommu_setup L mem s dev).2.2.viommus = s.viommus ∧
    (virt_iommu_setup L mem s dev).2.1.fwspec = dev.fwspec := by
  have e : virt_iommu_setup L mem s dev = (ops_ptr.null, dev, s) := by
    rcases h with h | ⟨pdev, hpci, hno⟩
    · exact virt_iommu_setup_platform L mem s dev h
    · exact virt_iommu_setup_no_match L mem s dev pdev hpci (viommu_scan_none L pdev _ hno)
  rw [e]
  exact ⟨rfl, rfl, rfl, rfl⟩

/-- C15 at the single range `[0x0008, 0x000F]` of A, bound: requester 0x0010
and a platform device both get NULL. -/
theorem virt_iommu_setup_not_described_witness :
    virt_iommu_setup spec_layout mem_ok state_A_bound dev_E = (ops_ptr.null, dev_E, state_A_bound) ∧
    virt_iommu_setup spec_layout mem_ok state_A_bound dev_P = (ops_ptr.null, dev_P, state_A_bound) :=
  ⟨(virt_iommu_setup_not_described spec_layout mem_ok state_A_bound dev_E
      (Or.inr ⟨⟨0, 16⟩, rfl, by decide⟩)).1,
   (virt_iommu_setup_not_described spec_layout mem_ok state_A_bound dev_P (Or.inl rfl)).1⟩

/-! ## C16: table order within a descriptor -/

theorem viommu_scan_items_append (L : topo_layout) (pdev : pci_dev)
    (pre post : List viommu_topo_cfg) (c : viommu_topo_cfg) (e : Nat)
    (hpre : ∀ x ∈ pre, viommu_parse_pci L pdev x = none)
    (hc : viommu_parse_pci L pdev c = some e) :
    viommu_scan_items L pdev (pre ++ c :: post) = some e := by
  induction pre with
  | nil => simp [viommu_scan_items, hc]
  | cons x pre ih =>
    simp only [List.cons_append, viommu_scan_items, hpre x (List.mem_cons_self _ _)]
    exact ih (fun y hy => hpre y (List.mem_cons_of_mem _ hy))

/-- C16: let S be the first descriptor with a matching record and let c be
the matching record of S with the lowest table index, giving endpoint id e.
Then the scan of `virt_iommu_setup` yields e, whatever records follow c in S,
and a device resolved against S is bound to the single id e. -/
theorem virt_iommu_setup_table_order (L : topo_layout) (mem : mem_env) (s : kstate)
    (dev : device) (pdev : pci_dev) (before after : List viommu_spec) (S : viommu_spec)
    (pre post : List viommu_topo_cfg) (c : viommu_topo_cfg) (e R : Nat)
    (hs : s.viommus = before ++ S :: after)
    (hbefore : ∀ d ∈ before, viommu_scan_items L pdev (d.cfg.take d.num_items) = none)
    (hS : S.cfg.take S.num_items = pre ++ c :: post)
    (hpre : ∀ x ∈ pre, viommu_parse_pci L pdev x = none)
    (hc : viommu_parse_pci L pdev c = some e)
    (hdev : dev.fwspec = none) (hpci : dev.pci = some pdev) (hne : S.dev ≠ dev.addr)
    (hops : S.ops = some R) (hmem : mem.kzalloc_ok = true) :
    viommu_scan L pdev s.viommus =
      some { viommu_ops := S.ops, viommu_fwnode := S.fwnode, viommu_dev := S.dev, epid := e } ∧
    virt_iommu_setup L mem s dev =
      (ops_ptr.ops R,
       { dev with fwspec := some { ops := some R, iommu_fwnode := S.fwnode, ids := [e] } },
       pci_request_acs s) := by
  have hitems : viommu_scan_items L pdev (S.cfg.take S.num_items) = some e := by
    rw [hS]; exact viommu_scan_items_append L pdev pre post c e hpre hc
  have hscan : viommu_scan L pdev s.viommus =
      some { viommu_ops := S.ops, viommu_fwnode := S.fwnode, viommu_dev := S.dev, epid := e } := by
    rw [hs, viommu_scan_append_of_none L pdev before _ hbefore]
    exact viommu_scan_cons_of_some L pdev S after e hitems
  exact ⟨hscan, virt_iommu_setup_resolved L mem s dev pdev _ R hdev hpci hscan hne hops hmem⟩

/-- C16 at a descriptor of A with the records `[0x0008, 0x000F]` (id 102 for
requester 0x000A) and `[0, 0x00FF]` (id 1010): the result is id 102. -/
theorem virt_iommu_setup_table_order_witness :
    virt_iommu_setup spec_layout mem_ok state_A_two_records dev_D =
      (ops_ptr.ops 700,
       { dev_D with fwspec := some { ops := some 700, iommu_fwnode := some 70, ids := [102] } },
       pci_request_acs state_A_two_records) :=
  (virt_iommu_setup_table_order spec_layout mem_ok state_A_two_records dev_D ⟨0, 10⟩ [] []
    { dev := 7, fwnode := some 70, ops := some 700, num_items := 2,
      cfg := [range_8_15, range_0_255] }
    [] [range_0_255] range_8_15 102 700
    (by decide) (by simp) (by decide) (by simp) (by decide) rfl rfl (by decide) rfl rfl).2


/-! ## C17: the ACS request -/

/-- C17 (amended): when the scan of `virt_iommu_setup`, run for a
not-yet-translated PCI device, finds a matching range record, ACS is requested
if the matched descriptor's transport device is another device, whatever is
returned then (`-EPROBE_DEFER`, a binding error or the ops); on self-exclusion
the function returns NULL before the request and the ACS flag stays as it
was. -/
theorem virt_iommu_setup_acs (L : topo_layout) (mem : mem_env) (s : kstate) (dev : device)
    (pdev : pci_dev) (m : viommu_found)
    (hnt : (dev.fwspec.bind fun f => f.ops).isSome = false) (hpci : dev.pci = some pdev)
    (hscan : viommu_scan L pdev s.viommus = some m) :
    (m.viommu_dev ≠ dev.addr → (virt_iommu_setup L mem s dev).2.2 = pci_request_acs s ∧
      (virt_iommu_setup L mem s dev).2.2.pci_acs_enable = true) ∧
    (m.viommu_dev = dev.addr → virt_iommu_setup L mem s dev = (ops_ptr.null, dev, s) ∧
      (virt_iommu_setup L mem s dev).2.2.pci_acs_enable = s.pci_acs_enable) := by
  constructor
  · intro hne
    have e : (virt_iommu_setup L mem s dev).2.2 = pci_request_acs s := by
      cases hops : m.viommu_ops with
      | none => rw [virt_iommu_setup_deferred L mem s dev pdev m hnt hpci hscan hne hops]
      | some R =>
        rw [virt_iommu_setup_bound L mem s dev pdev m R hnt hpci hscan hne hops]
        split <;> rfl
    exact ⟨e, by rw [e]; rfl⟩
  · intro hself
    have e := virt_iommu_setup_self L mem s dev pdev m hpci hscan hself
    exact ⟨e, by rw [e]⟩

/-- C17 at requester 0x000A and the range `[0x0008, 0x000F]` of unbound A:
the query is deferred and ACS is requested. -/
theorem virt_iommu_setup_acs_witness :
    (virt_iommu_setup spec_layout mem_ok state_A dev_D).2.2 = pci_request_acs state_A ∧
    (virt_iommu_setup spec_layout mem_ok state_A dev_D).2.2.pci_acs_enable = true :=
  (virt_iommu_setup_acs spec_layout mem_ok state_A dev_D ⟨0, 10⟩
    { viommu_ops := none, viommu_fwnode := none, viommu_dev := 7, epid := 102 }
    (by decide) rfl (by decide)).1 (by decide)

/-- C17 fails as stated: transport device A, a not-yet-translated PCI device
at requester 0x000A, is matched by the range `[0x0008, 0x000F]` of its own
bound descriptor; `virt_iommu_setup` returns NULL by self-exclusion and ACS is
not requested. -/
theorem acs_on_match_counterexample :
    (dev_A_pci.fwspec.bind fun f => f.ops).isSome = false ∧
    dev_A_pci.pci = some ⟨0, 10⟩ ∧
    viommu_scan spec_layout ⟨0, 10⟩ state_A_bound.viommus =
      some { viommu_ops := some 700, viommu_fwnode := some 70, viommu_dev := 7, epid := 102 } ∧
    state_A_bound.pci_acs_enable = false ∧
    (virt_iommu_setup spec_layout mem_ok state_A_bound dev_A_pci).1 = ops_ptr.null ∧
    (virt_iommu_setup spec_layout mem_ok state_A_bound dev_A_pci).2.2.pci_acs_enable = false := by
  refine ⟨by decide, by decide, by decide, by decide, by decide, by decide⟩

/-! ## C18: the copy width -/

theorem viommu_copy_items_reads_getD (L : topo_layout) (il n offset i : Nat)
    (ho : offset < 2 ^ 32) (hi : i < n) :
    (viommu_copy_items_reads L il n offset).getD i [] =
      viommu_ccopy_reads ((offset + i * il) % 2 ^ 32) (min il L.cfg_size) := by
  induction n generalizing offset i with
  | zero => omega
  | succ n ih =>
    cases i with
    | zero =>
      have e : (offset + 0 * il) % 2 ^ 32 = offset := by
        rw [Nat.zero_mul, Nat.add_zero]; exact Nat.mod_eq_of_lt ho
      rw [e]
      simp [viommu_copy_items_reads]
    | succ i =>
      have hlt : (offset + il) % 2 ^ 32 < 2 ^ 32 := Nat.mod_lt _ (by norm_num)
      have := ih ((offset + il) % 2 ^ 32) i hlt (by omega)
      have e : ((offset + il) % 2 ^ 32 + i * il) % 2 ^ 32 = (offset + (i + 1) * il) % 2 ^ 32 := by
        rw [Nat.succ_mul]
        omega
      rw [e] at this
      simpa [viommu_copy_items_reads] using this

theorem viommu_read_length_aligned (L : topo_layout) (w : Window) (hL : L.wf)
    (h4 : ioread32 w L.topo_item_length % 4 = 0) : viommu_read_length L w % 4 = 0 := by
  unfold viommu_read_length
  rcases Nat.le_total (ioread32 w L.topo_item_length) L.cfg_size with h | h
  · rw [Nat.min_eq_left h]; exact h4
  · rw [Nat.min_eq_right h]; exact hL.2.1

/-- C18 (amended): for every header with offset, item_length and num_items
non-zero and `item_length % 4 == 0`, when the allocation succeeds, for every
item `i < num_items` `viommu_parse_topology` reads exactly
`read_length = min(item_length, sizeof(union viommu_topo_cfg))` bytes, as
`read_length / 4` consecutive 32-bit words that start at the `u32` offset
`(offset + i * item_length) mod 2 ^ 32`; byte k of record i equals the byte at
that offset plus k for `k < read_length`, and every later byte of the record
is zero. -/
theorem viommu_parse_topology_copy_width (L : topo_layout) (mem : mem_env) (dev : device)
    (w : Window) (hL : L.wf)
    (ho : ioread32 w L.topo_offset ≠ 0) (hn : ioread32 w L.topo_num_items ≠ 0)
    (hl : ioread32 w L.topo_item_length ≠ 0) (h4 : ioread32 w L.topo_item_length % 4 = 0)
    (hm : mem.kzalloc_ok = true) (i : Nat) (hi : i < ioread32 w L.topo_num_items) :
    (viommu_parse_topology_reads L mem w).getD i [] =
      (List.range (viommu_read_length L w / 4)).map
        (fun j => viommu_item_offset L w i + 4 * j) ∧
    4 * (viommu_read_length L w / 4) = viommu_read_length L w ∧
    viommu_read_length L w ≤ L.cfg_size ∧
    viommu_read_length L w ≤ ioread32 w L.topo_item_length ∧
    ((viommu_new_spec L dev w).cfg.getD i []).length = L.cfg_size ∧
    (∀ k, k < viommu_read_length L w →
      cfg_byte ((viommu_new_spec L dev w).cfg.getD i []) k =
        w (viommu_item_offset L w i + k) % 256) ∧
    (∀ k, viommu_read_length L w ≤ k →
      cfg_byte ((viommu_new_spec L dev w).cfg.getD i []) k = 0) := by
  have hal := viommu_read_length_aligned L w hL h4
  have hle : viommu_read_length L w ≤ L.cfg_size := Nat.min_le_right _ _
  have hrec : (viommu_new_spec L dev w).cfg.getD i [] =
      viommu_ccopy w (zero_cfg L) (viommu_item_offset L w i) (viommu_read_length L w) :=
    viommu_copy_items_getD L w _ _ _ i (ioread32_lt w _) hi
  refine ⟨?_, by omega, hle, Nat.min_le_left _ _, ?_, ?_, ?_⟩
  · have : viommu_parse_topology_reads L mem w =
        viommu_copy_items_reads L (ioread32 w L.topo_item_length)
          (ioread32 w L.topo_num_items) (ioread32 w L.topo_offset) := by
      simp [viommu_parse_topology_reads, ho, hn, hl, hm]
    rw [this, viommu_copy_items_reads_getD L _ _ _ i (ioread32_lt w _) hi]
    show viommu_ccopy_reads (viommu_item_offset L w i) (viommu_read_length L w) = _
    unfold viommu_ccopy_reads
    rw [if_neg (by simp [hal])]
  · rw [hrec, viommu_ccopy_length]
    simp [zero_cfg]
  · intro k hk
    rw [hrec, viommu_ccopy_byte L w _ _ k hal, if_pos ⟨by omega, hk⟩]
  · intro k hk
    rw [hrec, viommu_ccopy_byte L w _ _ k hal, if_neg (by omega)]

/-- C18 at a one-item table of stride 16 at offset 52: four words are read, at
offsets 52, 56, 60 and 64. -/
theorem viommu_parse_topology_copy_width_witness :
    (viommu_parse_topology_reads spec_layout mem_ok (table_window 1 16 range_8_15)).getD 0 [] =
      (List.range (viommu_read_length spec_layout (table_window 1 16 range_8_15) / 4)).map
        (fun j => viommu_item_offset spec_layout (table_window 1 16 range_8_15) 0 + 4 * j) :=
  (viommu_parse_topology_copy_width spec_layout mem_ok dev_A (table_window 1 16 range_8_15)
    (by decide) (by decide) (by decide) (by decide) (by decide) rfl 0 (by decide)).1

/-- C18 fails as stated: with the header `{offset = 0xFFFFFFFC, num_items = 2,
item_length = 4}` the words of item 1 are not read starting at
`offset + 1 * item_length = 2 ^ 32`: the `u32` offset wraps, the one word is
read at offset 0, and byte 0 of record 1 is the byte at offset 0 (value 0),
not the byte at `2 ^ 32` (value 1). -/
theorem bounded_copy_width_counterexample :
    ioread32 wrap_window spec_layout.topo_offset = 4294967292 ∧
    ioread32 wrap_window spec_layout.topo_num_items = 2 ∧
    ioread32 wrap_window spec_layout.topo_item_length = 4 ∧
    (viommu_parse_topology_reads spec_layout mem_ok wrap_window).getD 1 [] = [0] ∧
    4294967292 + 1 * 4 = 4294967296 ∧
    cfg_byte ((viommu_new_spec spec_layout dev_A wrap_window).cfg.getD 1 []) 0 = 0 ∧
    wrap_window 4294967296 % 256 = 1 := by
  refine ⟨by decide, by decide, by decide, by decide, by decide, by decide, by decide⟩

/-! ## C19: what stays of a registered descriptor -/

theorem virt_set_iommu_ops_list_records (dev : device) (ops : Option Nat)
    (l : List viommu_spec) :
    (virt_set_iommu_ops_list dev ops l).map viommu_spec_records = l.map viommu_spec_records := by
  induction l with
  | nil => rfl
  | cons d l ih =>
    unfold virt_set_iommu_ops_list
    split
    · rfl
    · simp [ih]

theorem apply_op_records (L : topo_layout) (s : kstate) (o : registry_op) :
    ∃ pre, (apply_op L s o).viommus.map viommu_spec_records =
      pre ++ s.viommus.map viommu_spec_records := by
  cases o with
  | parse mem dev w =>
    rcases viommu_parse_topology_cases L mem dev w s with ⟨-, e⟩ | ⟨-, e⟩ | ⟨-, -, -, -, e⟩
    · exact ⟨[], by simp [apply_op, e]⟩
    · exact ⟨[], by simp [apply_op, e]⟩
    · exact ⟨[viommu_spec_records (viommu_new_spec L dev w)], by simp [apply_op, e]⟩
  | set_ops dev ops =>
    exact ⟨[], by simp [apply_op, virt_set_iommu_ops, virt_set_iommu_ops_list_records]⟩

theorem run_ops_records (L : topo_layout) (ops : List registry_op) (s : kstate) :
    ∃ pre, (run_ops L ops s).viommus.map viommu_spec_records =
      pre ++ s.viommus.map viommu_spec_records := by
  induction ops generalizing s with
  | nil => exact ⟨[], rfl⟩
  | cons o ops ih =>
    obtain ⟨p1, h1⟩ := apply_op_records L s o
    obtain ⟨p2, h2⟩ := ih (apply_op L s o)
    refine ⟨p2 ++ p1, ?_⟩
    show (run_ops L ops (apply_op L s o)).viommus.map viommu_spec_records = _
    rw [h2, h1, List.append_assoc]

theorem virt_iommu_setup_state (L : topo_layout) (mem : mem_env) (s : kstate) (dev : device) :
    (virt_iommu_setup L mem s dev).2.2 = s ∨
      (virt_iommu_setup L mem s dev).2.2 = pci_request_acs s := by
  rcases virt_iommu_setup_cases L mem s dev with ⟨-, e⟩ | ⟨pdev, m, -, -, -, -, -, e⟩ |
    ⟨pdev, m, R, -, -, -, -, -, e⟩
  · rw [e]; exact Or.inl rfl
  · rw [e]; exact Or.inr rfl
  · rw [e]; split <;> exact Or.inr rfl

theorem virt_dma_configure_state (L : topo_layout) (mem : mem_env) (s : kstate)
    (dev : device) :
    (virt_dma_configure L mem s dev).2.2 = (virt_iommu_setup L mem s dev).2.2 := by
  unfold virt_dma_configure
  simp only
  split_ifs <;> rfl

/-- C19: the transport device, record count and records of every registered
descriptor, and their order, stay through every later operation.
`viommu_parse_topology` leaves the registry as it is or puts one new
descriptor in front of it; `virt_set_iommu_ops` keeps these three fields of
every descriptor; after any sequence of these two calls the old descriptors
are still there, behind the new ones; `virt_iommu_setup` and
`virt_dma_configure` do not change the registry at all. -/
theorem viommu_spec_records_immutable (L : topo_layout) (mem : mem_env) (dev : device)
    (w : Window) (ops : Option Nat) (calls : List registry_op) (s : kstate) :
    ((viommu_parse_topology L mem dev w s).2.viommus = s.viommus ∨
      (viommu_parse_topology L mem dev w s).2.viommus = viommu_new_spec L dev w :: s.viommus) ∧
    (virt_set_iommu_ops dev ops s).viommus.map viommu_spec_records =
      s.viommus.map viommu_spec_records ∧
    (∃ pre, (run_ops L calls s).viommus.map viommu_spec_records =
      pre ++ s.viommus.map viommu_spec_records) ∧
    (virt_iommu_setup L mem s dev).2.2.viommus = s.viommus ∧
    (virt_dma_configure L mem s dev).2.2.viommus = s.viommus := by
  have hsetup : (virt_iommu_setup L mem s dev).2.2.viommus = s.viommus := by
    rcases virt_iommu_setup_state L mem s dev with h | h <;> simp [h, pci_request_acs]
  refine ⟨?_, virt_set_iommu_ops_list_records dev ops s.viommus, run_ops_records L calls s,
    hsetup, ?_⟩
  · rcases viommu_parse_topology_cases L mem dev w s with ⟨-, e⟩ | ⟨-, e⟩ | ⟨-, -, -, -, e⟩
    · rw [e]; exact Or.inl rfl
    · rw [e]; exact Or.inl rfl
    · rw [e]; exact Or.inr rfl
  · rw [virt_dma_configure_state]; exact hsetup

end ViommuTopology
